import Mathlib

/-!
# Length-constrained email and username generators

A shallow embedding of `worker/internal/benthos/transformers/generate_email.go`
and `generate_username.go`.

* Go `int64` values are integers; every subtraction the code performs goes
  through `sub64`, which wraps modulo `2^64` the way Go does.
* A Go `string` is a `String`; `len` is the byte length (`len(s)` in Go).
* A Go result `(string, error)` is a pair `String × Option GoError`.
* The randomizer (`rng.Rand`) is a mutable object in Go; here every operation
  that draws from it takes the state and returns the next one.
* A run-time panic (slice index out of range) is the outcome `none`.
* The helper packages (`transformer_utils`, `data-sets`, `rng`), the name
  generators `generateRandomFirstName` and `generateRandomLastName` and
  `strings.ToLower` live outside the two files; they are the fields of `Helpers`.
* `uuid.NewString()` reads the process entropy source; the value it returns
  is an explicit argument of the functions that call it.
-/

namespace Neosync

/-! ## Go runtime -/

/-- Smallest `int64`. -/
def minInt64 : Int := -9223372036854775808

/-- Largest `int64`. -/
def maxInt64 : Int := 9223372036854775807

/-- Range of the Go type `int64`. -/
abbrev isInt64 (x : Int) : Prop := minInt64 ≤ x ∧ x ≤ maxInt64

/-- Two's-complement reduction of an integer to the `int64` range. -/
def wrap64 (x : Int) : Int :=
  (x + 9223372036854775808) % 18446744073709551616 - 9223372036854775808

/-- Go `a - b` on `int64` operands. -/
def sub64 (a b : Int) : Int := wrap64 (a - b)

/-- Go `int64(len(s))`: the number of bytes of `s`. -/
def len (s : String) : Int := (s.utf8ByteSize : Int)

/-- Go `xs[i]` for an `int64` index: `none` is the index-out-of-range panic. -/
def index64 (xs : List Int) (i : Int) : Option Int :=
  if 0 ≤ i then xs.get? i.toNat else none

/-- Every character of the string is below U+0080. -/
def isASCII (s : String) : Bool := s.data.all (fun c => decide (c.toNat < 128))

/-- Go `error` values: `new` is what `errors.New` and `fmt.Errorf` without `%w`
build, `wrap` is what `fmt.Errorf` with `%w` builds (the formatted text and the
wrapped error). -/
inductive GoError where
  | new (msg : String)
  | wrap (msg : String) (inner : GoError)
  deriving DecidableEq, Repr

/-- Go `err.Error()`. -/
def GoError.Error : GoError → String
  | GoError.new msg => msg
  | GoError.wrap msg _ => msg

/-- Go `errors.Unwrap(err)`. -/
def GoError.Unwrap : GoError → Option GoError
  | GoError.new _ => none
  | GoError.wrap _ inner => some inner

/-- Go `strings.ReplaceAll(s, "-", "")`. -/
def removeHyphens (s : String) : String :=
  String.mk (s.data.filter (fun c => decide (c ≠ '-')))

/-- Go `strings.Join(pieces, "")`. -/
def joinPieces (pieces : List String) : String :=
  String.intercalate "" pieces

/-! ## The helpers outside the sources -/

/-- What the two generator files import. `R` is the state of a randomizer. -/
structure Helpers (R : Type) where
  /-- Constructor `rng.New(seed)`. -/
  New : Int → R
  /-- Method `randomizer.Intn(n)`. -/
  Intn : R → Int → Int × R
  /-- Table `transformers_dataset.EmailDomains`. -/
  EmailDomains : List String
  /-- Table `transformers_dataset.EmailDomainMap` (length to index range). -/
  EmailDomainMap : List (Int × (Int × Int))
  /-- Table `transformers_dataset.EmailDomainIndices`. -/
  EmailDomainIndices : List Int
  /-- Table `transformers_dataset.FirstNameIndices`. -/
  FirstNameIndices : List Int
  /-- Table `transformers_dataset.LastNameIndices`. -/
  LastNameIndices : List Int
  /-- Function `transformer_utils.GenerateStringFromCorpus`. -/
  GenerateStringFromCorpus :
    R → List String → List (Int × (Int × Int)) → List Int → Option Int → Int → List String →
      (String × Option GoError) × R
  /-- Function `transformer_utils.FindClosestPair`. -/
  FindClosestPair : List Int → List Int → Int → Int × Int
  /-- Function `generateRandomFirstName(randomizer, minLength, maxLength)`. -/
  generateRandomFirstName : R → Option Int → Int → (String × Option GoError) × R
  /-- Function `generateRandomLastName(randomizer, minLength, maxLength)`. -/
  generateRandomLastName : R → Option Int → Int → (String × Option GoError) × R
  /-- Function `transformer_utils.GetRandomCharacterString(randomizer, n)`. -/
  GetRandomCharacterString : R → Int → String × R
  /-- Function `transformer_utils.WithoutCharacters(s, chars)`. -/
  WithoutCharacters : String → String → String
  /-- Constant `transformer_utils.SpecialChars`. -/
  SpecialChars : String
  /-- Function `transformer_utils.TrimStringIfExceeds(s, n)`. -/
  TrimStringIfExceeds : String → Int → String
  /-- Function `strings.ToLower`. -/
  ToLower : String → String

variable {R : Type}

/-! ## generate_email.go -/

/-- The Go type `generateEmailType` is a string. -/
abbrev generateEmailType := String

def uuidV4EmailType : generateEmailType := "uuidv4"
def fullNameEmailType : generateEmailType := "fullname"
def anyEmailType : generateEmailType := "any"

/-- Lines 27-29. -/
def isValidEmailType (emailType : String) : Bool :=
  emailType == uuidV4EmailType || emailType == fullNameEmailType

/-- Lines 81-86. -/
def getEmailTypeOrDefault (input : String) : generateEmailType :=
  if isValidEmailType input then input else uuidV4EmailType

/-- Lines 88-98. -/
def getRandomEmailDomain (h : Helpers R) (randomizer : R) (maxLength : Int)
    (excludedDomains : List String) : (String × Option GoError) × R :=
  h.GenerateStringFromCorpus randomizer h.EmailDomains h.EmailDomainMap h.EmailDomainIndices
    none maxLength excludedDomains

/-- Lines 111-117. -/
def getRandomEmailType (h : Helpers R) (randomizer : R) : generateEmailType × R :=
  let d := h.Intn randomizer 2
  if d.1 = 0 then (uuidV4EmailType, d.2) else (fullNameEmailType, d.2)

/-- Lines 151-158 of `generateNameForEmail`: when the solver found no index at
all, a last name under the whole budget, or, if that fails, a random character
string; the error of the last-name generator is dropped. The result is the
value of `randomLastName` after the block. -/
def fallbackLastName (h : Helpers R) (randomizer : R) (minLength : Option Int)
    (maxLength maxFirstNameIdx maxLastNameIdx : Int) : String × R :=
  if maxFirstNameIdx = -1 ∧ maxLastNameIdx = -1 then
    match h.generateRandomLastName randomizer minLength maxLength with
    | ((_, some _), r) => h.GetRandomCharacterString r maxLength
    | ((ln, none), r) => (ln, r)
  else ("", randomizer)

/-- Lines 176-191 of `generateNameForEmail`: strip and lower-case both names,
fail when both are empty, join the non-empty ones. -/
def joinName (h : Helpers R) (firstName lastName : String) : String × Option GoError :=
  let randomFirstName := h.ToLower (h.WithoutCharacters firstName h.SpecialChars)
  let randomLastName := h.ToLower (h.WithoutCharacters lastName h.SpecialChars)
  if randomFirstName = "" ∧ randomLastName = "" then
    ("", some (GoError.new "unable to generate random first and/or last name for email"))
  else
    let pieces : List String :=
      (if randomFirstName ≠ "" then [randomFirstName] else []) ++
      (if randomLastName ≠ "" then [randomLastName] else [])
    (joinPieces pieces, none)

/-- Lines 144-191 of `generateNameForEmail`: everything up to and including
`fullname := strings.Join(pieces, "")`. The value of a successful outcome is
`fullname`. -/
def assembleNameForEmail (h : Helpers R) (randomizer : R) (minLength : Option Int)
    (maxLength : Int) : Option ((String × Option GoError) × R) :=
  let idx := h.FindClosestPair h.FirstNameIndices h.LastNameIndices maxLength
  let maxFirstNameIdx := idx.1
  let maxLastNameIdx := idx.2
  let fb := fallbackLastName h randomizer minLength maxLength maxFirstNameIdx maxLastNameIdx
  -- lines 159-166
  let first : Option ((String × Option GoError) × R) :=
    if maxFirstNameIdx ≠ -1 then
      match index64 h.FirstNameIndices maxFirstNameIdx with
      | none => none
      | some maxFirstNameLength => some (h.generateRandomFirstName fb.2 none maxFirstNameLength)
    else some (("", none), fb.2)
  match first with
  | none => none
  | some ((_, some err), r1) => some (("", some err), r1)
  | some ((firstName, none), r1) =>
    -- lines 167-174
    let last : Option ((String × Option GoError) × R) :=
      if maxLastNameIdx ≠ -1 then
        match index64 h.LastNameIndices maxLastNameIdx with
        | none => none
        | some maxLastNameLength => some (h.generateRandomLastName r1 none maxLastNameLength)
      else some ((fb.1, none), r1)
    match last with
    | none => none
    | some ((_, some err), r2) => some (("", some err), r2)
    | some ((lastName, none), r2) => some (joinName h firstName lastName, r2)

/-- Lines 143-197. -/
def generateNameForEmail (h : Helpers R) (randomizer : R) (minLength : Option Int)
    (maxLength : Int) : Option ((String × Option GoError) × R) :=
  match assembleNameForEmail h randomizer minLength maxLength with
  | none => none
  | some ((v, some err), r) => some ((v, some err), r)
  | some ((fullname, none), r) =>
    -- lines 192-196
    match minLength with
    | some m =>
      if len fullname < m then
        let delta := sub64 m (len fullname)
        let filler := h.GetRandomCharacterString r delta
        some ((fullname ++ filler.1, none), filler.2)
      else some ((fullname, none), r)
    | none => some ((fullname, none), r)

/-- Text of the error of lines 122 and 202. -/
def lengthInfeasibleMsg (maxLength : Int) : String :=
  "for the given max length, unable to generate an email of sufficient length: " ++
    toString maxLength

/-- Lines 119-137. -/
def generateFullnameEmail (h : Helpers R) (randomizer : R) (maxLength : Int)
    (excludedDomains : List String) : Option ((String × Option GoError) × R) :=
  let domainMaxLength := sub64 maxLength 2
  if domainMaxLength ≤ 0 then
    some (("", some (GoError.new (lengthInfeasibleMsg maxLength))), randomizer)
  else
    match getRandomEmailDomain h randomizer domainMaxLength excludedDomains with
    | ((_, some err), r1) => some (("", some err), r1)
    | ((domain, none), r1) =>
      let fullNameMaxLength := sub64 (sub64 maxLength (len domain)) 1
      match generateNameForEmail h r1 none fullNameMaxLength with
      | none => none
      | some ((_, some err), r2) =>
        some (("", some (GoError.wrap
          ("unable to generate name for email: " ++ err.Error) err)), r2)
      | some ((generatename, none), r2) =>
        some ((generatename ++ "@" ++ domain, none), r2)

/-- Lines 199-215. `uuidNewString` is the value `uuid.NewString()` returns
during the call: the uuid package draws it from the process-wide entropy
reader, it is not drawn from `randomizer`. -/
def generateUuidEmail (h : Helpers R) (randomizer : R) (uuidNewString : String)
    (maxLength : Int) (excludedDomains : List String) :
    Option ((String × Option GoError) × R) :=
  let domainMaxLength := sub64 maxLength 2
  if domainMaxLength ≤ 0 then
    some (("", some (GoError.new (lengthInfeasibleMsg maxLength))), randomizer)
  else
    match getRandomEmailDomain h randomizer domainMaxLength excludedDomains with
    | ((_, some _), r1) =>
      some (("", some (GoError.new
        ("unable to generate random email domain given the max length when generating a uuid email: "
          ++ toString maxLength))), r1)
    | ((domain, none), r1) =>
      let newuuid := removeHyphens uuidNewString
      let trimmedUuid :=
        h.TrimStringIfExceeds newuuid (sub64 (sub64 maxLength (len domain)) 1)
      if trimmedUuid = "" then
        some (("", some (GoError.new
          ("for the given max length, unable to use a uuid to generate an email for the given length: "
            ++ toString maxLength))), r1)
      else some ((trimmedUuid ++ "@" ++ domain, none), r1)

/-- Lines 101-109. -/
def generateRandomEmail (h : Helpers R) (randomizer : R) (uuidNewString : String)
    (maxLength : Int) (emailType : generateEmailType) (excludedDomains : List String) :
    Option ((String × Option GoError) × R) :=
  let t : generateEmailType × R :=
    if emailType = anyEmailType then getRandomEmailType h randomizer
    else (emailType, randomizer)
  if t.1 = uuidV4EmailType then
    generateUuidEmail h t.2 uuidNewString maxLength excludedDomains
  else generateFullnameEmail h t.2 maxLength excludedDomains

/-! ## generate_username.go -/

/-- Lines 44-52. -/
def generateUsername (h : Helpers R) (randomizer : R) (maxLength : Int) :
    (String × Option GoError) × R :=
  let fn := h.GetRandomCharacterString randomizer 1
  match h.generateRandomLastName fn.2 none (sub64 maxLength 1) with
  | ((_, some err), r) => (("", some err), r)
  | ((ln, none), r) => ((fn.1 ++ h.ToLower ln, none), r)

/-- The variables captured by the closure registered as `generate_username`
(lines 18-36): the parsed arguments. Both parameters carry a default, so reading
them in an invocation succeeds. -/
structure UsernameClosure where
  maxLength : Int
  seed : Int
  deriving DecidableEq, Repr

/-- Lines 19-35: one invocation of the function registered as
`generate_username`. It returns the Go pair `(any, error)`, `none` standing for
`nil`, and the captured variables as the invocation leaves them. -/
def UsernameClosure.invoke (h : Helpers R) (c : UsernameClosure) :
    (Option String × Option GoError) × UsernameClosure :=
  let randomizer := h.New c.seed
  match generateUsername h randomizer c.maxLength with
  | ((_, some err), _) =>
    ((none, some (GoError.wrap ("unable to run generate_username: " ++ err.Error) err)), c)
  | ((res, none), _) => ((some res, none), c)

/-- Number of `@` signs in a string. -/
def countAt (s : String) : Nat := s.data.count '@'

/-- The name assembly of `generateNameForEmail` written as a decision table
over the two indices of the solver: both parts, the last name alone, the first
name alone, or, with no index at all, a last name under the whole budget (the
only call that receives `minLength`) and a random character string if that
fails. In every row the parts go through `joinName`. The two bounds are never
compared. -/
def fallbackChain (h : Helpers R) (randomizer : R) (minLength : Option Int) (maxLength : Int) :
    Option ((String × Option GoError) × R) :=
  let idx := h.FindClosestPair h.FirstNameIndices h.LastNameIndices maxLength
  if idx.1 = -1 then
    if idx.2 = -1 then
      match h.generateRandomLastName randomizer minLength maxLength with
      | ((ln, none), r) => some (joinName h "" ln, r)
      | ((_, some _), r) =>
        some (joinName h "" (h.GetRandomCharacterString r maxLength).1,
          (h.GetRandomCharacterString r maxLength).2)
    else
      match index64 h.LastNameIndices idx.2 with
      | none => none
      | some maxLastNameLength =>
        match h.generateRandomLastName randomizer none maxLastNameLength with
        | ((_, some err), r) => some (("", some err), r)
        | ((ln, none), r) => some (joinName h "" ln, r)
  else
    match index64 h.FirstNameIndices idx.1 with
    | none => none
    | some maxFirstNameLength =>
      match h.generateRandomFirstName randomizer none maxFirstNameLength with
      | ((_, some err), r) => some (("", some err), r)
      | ((fn, none), r1) =>
        if idx.2 = -1 then some (joinName h fn "", r1)
        else
          match index64 h.LastNameIndices idx.2 with
          | none => none
          | some maxLastNameLength =>
            match h.generateRandomLastName r1 none maxLastNameLength with
            | ((_, some err), r2) => some (("", some err), r2)
            | ((ln, none), r2) => some (joinName h fn ln, r2)

/-- The ceiling an index of the solver stands for: `0` for the index `-1`
(part omitted), the indexed length otherwise. -/
def ceilAt (xs : List Int) (i : Int) : Int :=
  if i = -1 then 0 else (index64 xs i).getD 0

/-- The contracts of the helpers that the length bounds rest on. -/
structure Lawful (h : Helpers R) : Prop where
  /-- The domain sampler returns a domain no longer than its ceiling. -/
  domain_le : ∀ r n excl d r1, getRandomEmailDomain h r n excl = ((d, none), r1) → len d ≤ n
  /-- The two lengths indexed by the result of `FindClosestPair` sum to at most
  the budget. -/
  pair_le : ∀ n i j, h.FindClosestPair h.FirstNameIndices h.LastNameIndices n = (i, j) →
    (i ≠ -1 ∨ j ≠ -1) → ceilAt h.FirstNameIndices i + ceilAt h.LastNameIndices j ≤ n
  /-- A generated first name is no longer than its maximum length. -/
  first_le : ∀ r mn n s r1, h.generateRandomFirstName r mn n = ((s, none), r1) → len s ≤ n
  /-- A generated last name is no longer than its maximum length. -/
  last_le : ∀ r mn n s r1, h.generateRandomLastName r mn n = ((s, none), r1) → len s ≤ n
  /-- Generated first names are ASCII. -/
  first_ascii : ∀ r mn n s r1, h.generateRandomFirstName r mn n = ((s, none), r1) →
    isASCII s = true
  /-- Generated last names are ASCII. -/
  last_ascii : ∀ r mn n s r1, h.generateRandomLastName r mn n = ((s, none), r1) →
    isASCII s = true
  /-- The string `GetRandomCharacterString(r, n)` has length `n`. -/
  chars_len : ∀ r n, 0 ≤ n → len (h.GetRandomCharacterString r n).1 = n
  /-- Random character strings are ASCII. -/
  chars_ascii : ∀ r n, isASCII (h.GetRandomCharacterString r n).1 = true
  /-- The string `TrimStringIfExceeds(s, n)` has length at most `n`. -/
  trim_le : ∀ s n, 0 ≤ n → len (h.TrimStringIfExceeds s n) ≤ n
  /-- Removing the special characters does not lengthen a string. -/
  strip_le : ∀ s, len (h.WithoutCharacters s h.SpecialChars) ≤ len s
  /-- Removing the special characters of an ASCII string leaves it ASCII. -/
  strip_ascii : ∀ s, isASCII s = true → isASCII (h.WithoutCharacters s h.SpecialChars) = true
  /-- Lower-casing does not lengthen an ASCII string. -/
  lower_le : ∀ s, isASCII s = true → len (h.ToLower s) ≤ len s

/-- The variables captured by the closure registered as `generate_email`
(lines 37-74). The randomizer is built once, when the function is registered,
and every invocation draws from it. -/
structure EmailClosure (R : Type) where
  randomizer : R
  maxLength : Int
  emailType : generateEmailType
  excludedDomains : List String
  deriving DecidableEq, Repr

/-- Lines 37-66: what the constructor passed to `RegisterFunctionV2` does with
the parsed arguments. `seedArg` is the optional argument `seed`; `cryptoSeed`
is the outcome of `transformer_utils.GenerateCryptoSeed()`, used when no seed
is given. The result is the Go pair `(bloblang.Function, error)`. -/
def registerGenerateEmail (h : Helpers R) (maxLength : Int) (emailTypeArg : String)
    (seedArg : Option Int) (cryptoSeed : Int × Option GoError) :
    Option (EmailClosure R) × Option GoError :=
  let emailType := getEmailTypeOrDefault emailTypeArg
  match seedArg with
  | some seed => (some ⟨h.New seed, maxLength, emailType, []⟩, none)
  | none =>
    match cryptoSeed with
    | (_, some err) => (none, some err)
    | (seed, none) => (some ⟨h.New seed, maxLength, emailType, []⟩, none)

/-- Lines 67-73: one invocation of the function registered as `generate_email`.
It returns the Go pair `(any, error)`, `none` standing for `nil`, and the
captured variables as the invocation leaves them: the randomizer has advanced. -/
def EmailClosure.invoke (h : Helpers R) (c : EmailClosure R) (uuidNewString : String) :
    Option ((Option String × Option GoError) × EmailClosure R) :=
  match generateRandomEmail h c.randomizer uuidNewString c.maxLength c.emailType
      c.excludedDomains with
  | none => none
  | some ((_, some err), r) =>
    some ((none, some (GoError.wrap ("unable to run generate_email: " ++ err.Error) err)),
      ⟨r, c.maxLength, c.emailType, c.excludedDomains⟩)
  | some ((output, none), r) =>
    some ((some output, none), ⟨r, c.maxLength, c.emailType, c.excludedDomains⟩)

/-- A lower-case hexadecimal digit. -/
def isHexDigit (c : Char) : Bool :=
  (decide ('0' ≤ c) && decide (c ≤ '9')) || (decide ('a' ≤ c) && decide (c ≤ 'f'))

/-- The canonical text form of a UUID, as `uuid.NewString()` returns it: 36
characters, hyphens at the positions 8, 13, 18 and 23, and 32 lower-case
hexadecimal digits around them. -/
def isUuidString (u : String) : Bool :=
  u.data.length == 36 &&
  [8, 13, 18, 23].all (fun i => u.data.get? i == some '-') &&
  (removeHyphens u).data.length == 32 &&
  (removeHyphens u).data.all isHexDigit

/-- The contract of `TrimStringIfExceeds` on text of one byte per character:
the string itself when it is within `n` bytes, its first `n` characters
otherwise. -/
def TrimsToPrefix (h : Helpers R) : Prop :=
  ∀ (s : String) (n : Int), isASCII s = true → 0 ≤ n →
    h.TrimStringIfExceeds s n = if len s > n then String.mk (s.data.take n.toNat) else s

/-! ## system_transformers.go -/

namespace TransformersService

/-- A value of the enum `mgmtv1alpha1.TransformerSource`. The enum is declared
in generated code outside the file; a value is kept as the name of its constant,
different constants being different values. -/
abbrev TransformerSource := String

/-- A value of the enum `mgmtv1alpha1.TransformerDataType`, kept as the name of
its constant. -/
abbrev TransformerDataType := String

/-- The message `mgmtv1alpha1.SystemTransformer`. `Config` is the case of the
configuration oneof; the default parameters inside it play no part in sorting
or lookup and are left out. -/
structure SystemTransformer where
  Name : String
  Description : String
  DataType : TransformerDataType
  Source : TransformerSource
  Config : String
  deriving DecidableEq, Repr

/-- Lines 14-519: the slice `systemTransformers` as declared, before `init`
sorts it. -/
def systemTransformers : List SystemTransformer := [
  { Name := "Generate Email",
    Description := "Generates a new randomized email address.",
    DataType := "TRANSFORMER_DATA_TYPE_STRING",
    Source := "TRANSFORMER_SOURCE_GENERATE_EMAIL",
    Config := "GenerateEmailConfig" },
  { Name := "Transform Email",
    Description := "Transforms an existing email address.",
    DataType := "TRANSFORMER_DATA_TYPE_STRING",
    Source := "TRANSFORMER_SOURCE_TRANSFORM_EMAIL",
    Config := "TransformEmailConfig" },
  { Name := "Generate Boolean",
    Description := "Generates a boolean value at random.",
    DataType := "TRANSFORMER_DATA_TYPE_BOOLEAN",
    Source := "TRANSFORMER_SOURCE_GENERATE_BOOL",
    Config := "GenerateBoolConfig" },
  { Name := "Generate Card Number",
    Description := "Generates a card number.",
    DataType := "TRANSFORMER_DATA_TYPE_INT64",
    Source := "TRANSFORMER_SOURCE_GENERATE_CARD_NUMBER",
    Config := "GenerateCardNumberConfig" },
  { Name := "Generate City",
    Description := "Randomly selects a city from a list of predfined US cities.",
    DataType := "TRANSFORMER_DATA_TYPE_STRING",
    Source := "TRANSFORMER_SOURCE_GENERATE_CITY",
    Config := "GenerateCityConfig" },
  { Name := "Generate Default",
    Description := "Defers to the database column default",
    DataType := "TRANSFORMER_DATA_TYPE_STRING",
    Source := "TRANSFORMER_SOURCE_GENERATE_DEFAULT",
    Config := "GenerateDefaultConfig" },
  { Name := "Generate International Phone Number",
    Description := "Generates a phone number in international format with the + character at the start of the phone number. Note that the + sign is not included in the min or max.",
    DataType := "TRANSFORMER_DATA_TYPE_STRING",
    Source := "TRANSFORMER_SOURCE_GENERATE_E164_PHONE_NUMBER",
    Config := "GenerateE164PhoneNumberConfig" },
  { Name := "Generate First Name",
    Description := "Generates a random first name. ",
    DataType := "TRANSFORMER_DATA_TYPE_STRING",
    Source := "TRANSFORMER_SOURCE_GENERATE_FIRST_NAME",
    Config := "GenerateFirstNameConfig" },
  { Name := "Generate Float64",
    Description := "Generates a random float64 value.",
    DataType := "TRANSFORMER_DATA_TYPE_FLOAT64",
    Source := "TRANSFORMER_SOURCE_GENERATE_FLOAT64",
    Config := "GenerateFloat64Config" },
  { Name := "Generate Full Address",
    Description := "Randomly generates a street address in the format: \x7bstreet_num\x7d \x7bstreet_addresss\x7d \x7bstreet_descriptor\x7d \x7bcity\x7d, \x7bstate\x7d \x7bzipcode\x7d. For example, 123 Main Street Boston, Massachusetts 02169.",
    DataType := "TRANSFORMER_DATA_TYPE_STRING",
    Source := "TRANSFORMER_SOURCE_GENERATE_FULL_ADDRESS",
    Config := "GenerateFullAddressConfig" },
  { Name := "Generate Full Name",
    Description := "Generates a new full name consisting of a first and last name",
    DataType := "TRANSFORMER_DATA_TYPE_STRING",
    Source := "TRANSFORMER_SOURCE_GENERATE_FULL_NAME",
    Config := "GenerateFullNameConfig" },
  { Name := "Generate Gender",
    Description := "Randomly generates one of the following genders: female, male, undefined, nonbinary.",
    DataType := "TRANSFORMER_DATA_TYPE_STRING",
    Source := "TRANSFORMER_SOURCE_GENERATE_GENDER",
    Config := "GenerateGenderConfig" },
  { Name := "Generate Int64 Phone Number",
    Description := "Generates a new phone number with a default length of 10.",
    DataType := "TRANSFORMER_DATA_TYPE_INT64",
    Source := "TRANSFORMER_SOURCE_GENERATE_INT64_PHONE_NUMBER",
    Config := "GenerateInt64PhoneNumberConfig" },
  { Name := "Generate Random Int64",
    Description := "Generates a random int64 value.",
    DataType := "TRANSFORMER_DATA_TYPE_INT64",
    Source := "TRANSFORMER_SOURCE_GENERATE_INT64",
    Config := "GenerateInt64Config" },
  { Name := "Generate Last Name",
    Description := "Generates a random last name.",
    DataType := "TRANSFORMER_DATA_TYPE_INT64",
    Source := "TRANSFORMER_SOURCE_GENERATE_LAST_NAME",
    Config := "GenerateLastNameConfig" },
  { Name := "Generate SHA256 Hash",
    Description := "SHA256 hashes a randomly generated value.",
    DataType := "TRANSFORMER_DATA_TYPE_STRING",
    Source := "TRANSFORMER_SOURCE_GENERATE_SHA256HASH",
    Config := "GenerateSha256HashConfig" },
  { Name := "Generate SSN",
    Description := "Generates a completely random social security numbers including the hyphens in the format <xxx-xx-xxxx>",
    DataType := "TRANSFORMER_DATA_TYPE_STRING",
    Source := "TRANSFORMER_SOURCE_GENERATE_SSN",
    Config := "GenerateSsnConfig" },
  { Name := "Generate State",
    Description := "Randomly selects a US state and returns the two-character state code.",
    DataType := "TRANSFORMER_DATA_TYPE_STRING",
    Source := "TRANSFORMER_SOURCE_GENERATE_STATE",
    Config := "GenerateStateConfig" },
  { Name := "Generate Street Address",
    Description := "Randomly generates a street address in the format: \x7bstreet_num\x7d \x7bstreet_addresss\x7d \x7bstreet_descriptor\x7d. For example, 123 Main Street.",
    DataType := "TRANSFORMER_DATA_TYPE_STRING",
    Source := "TRANSFORMER_SOURCE_GENERATE_STREET_ADDRESS",
    Config := "GenerateStreetAddressConfig" },
  { Name := "Generate String Phone Number",
    Description := "Generates a phone number and returns it as a string.",
    DataType := "TRANSFORMER_DATA_TYPE_STRING",
    Source := "TRANSFORMER_SOURCE_GENERATE_STRING_PHONE_NUMBER",
    Config := "GenerateStringPhoneNumberConfig" },
  { Name := "Generate Random String",
    Description := "Creates a randomly ordered alphanumeric string between the specified range",
    DataType := "TRANSFORMER_DATA_TYPE_STRING",
    Source := "TRANSFORMER_SOURCE_GENERATE_RANDOM_STRING",
    Config := "GenerateStringConfig" },
  { Name := "Generate Unix Timestamp",
    Description := "Randomly generates a Unix timestamp",
    DataType := "TRANSFORMER_DATA_TYPE_INT64",
    Source := "TRANSFORMER_SOURCE_GENERATE_UNIXTIMESTAMP",
    Config := "GenerateUnixtimestampConfig" },
  { Name := "Generate Username",
    Description := "Randomly generates a username in the format <first_initial><last_name>.",
    DataType := "TRANSFORMER_DATA_TYPE_STRING",
    Source := "TRANSFORMER_SOURCE_GENERATE_USERNAME",
    Config := "GenerateUsernameConfig" },
  { Name := "Generate UTC Timestamp",
    Description := "Randomly generates a UTC timestamp.",
    DataType := "TRANSFORMER_DATA_TYPE_TIME",
    Source := "TRANSFORMER_SOURCE_GENERATE_UTCTIMESTAMP",
    Config := "GenerateUtctimestampConfig" },
  { Name := "Generate UUID",
    Description := "Generates a new UUIDv4 id.",
    DataType := "TRANSFORMER_DATA_TYPE_UUID",
    Source := "TRANSFORMER_SOURCE_GENERATE_UUID",
    Config := "GenerateUuidConfig" },
  { Name := "Generate Zipcode",
    Description := "Randomly selects a zip code from a list of predefined US zipcodes.",
    DataType := "TRANSFORMER_DATA_TYPE_STRING",
    Source := "TRANSFORMER_SOURCE_GENERATE_ZIPCODE",
    Config := "GenerateZipcodeConfig" },
  { Name := "Transform E164 Phone Number",
    Description := "Transforms an existing E164 formatted phone number.",
    DataType := "TRANSFORMER_DATA_TYPE_STRING",
    Source := "TRANSFORMER_SOURCE_TRANSFORM_E164_PHONE_NUMBER",
    Config := "TransformE164PhoneNumberConfig" },
  { Name := "Transform First Name",
    Description := "Transforms an existing first name",
    DataType := "TRANSFORMER_DATA_TYPE_STRING",
    Source := "TRANSFORMER_SOURCE_TRANSFORM_FIRST_NAME",
    Config := "TransformFirstNameConfig" },
  { Name := "Transform Float64",
    Description := "Transforms an existing float value.",
    DataType := "TRANSFORMER_DATA_TYPE_FLOAT64",
    Source := "TRANSFORMER_SOURCE_TRANSFORM_FLOAT64",
    Config := "TransformFloat64Config" },
  { Name := "Transform Full Name",
    Description := "Transforms an existing full name.",
    DataType := "TRANSFORMER_DATA_TYPE_STRING",
    Source := "TRANSFORMER_SOURCE_TRANSFORM_FULL_NAME",
    Config := "TransformFullNameConfig" },
  { Name := "Transform Int64 Phone Number",
    Description := "Transforms an existing phone number that is typed as an integer",
    DataType := "TRANSFORMER_DATA_TYPE_INT64",
    Source := "TRANSFORMER_SOURCE_TRANSFORM_INT64_PHONE_NUMBER",
    Config := "TransformInt64PhoneNumberConfig" },
  { Name := "Transform Int64",
    Description := "Transforms an existing integer value.",
    DataType := "TRANSFORMER_DATA_TYPE_INT64",
    Source := "TRANSFORMER_SOURCE_TRANSFORM_INT64",
    Config := "TransformInt64Config" },
  { Name := "Transform Last Name",
    Description := "Transforms an existing last name.",
    DataType := "TRANSFORMER_DATA_TYPE_STRING",
    Source := "TRANSFORMER_SOURCE_TRANSFORM_LAST_NAME",
    Config := "TransformLastNameConfig" },
  { Name := "Transform String Phone Number",
    Description := "Transforms an existing phone number that is typed as a string.",
    DataType := "TRANSFORMER_DATA_TYPE_STRING",
    Source := "TRANSFORMER_SOURCE_TRANSFORM_PHONE_NUMBER",
    Config := "TransformPhoneNumberConfig" },
  { Name := "Transform String",
    Description := "Transforms an existing string value.",
    DataType := "TRANSFORMER_DATA_TYPE_STRING",
    Source := "TRANSFORMER_SOURCE_TRANSFORM_STRING",
    Config := "TransformStringConfig" },
  { Name := "Passthrough",
    Description := "Passes the input value through to the desination with no changes.",
    DataType := "TRANSFORMER_DATA_TYPE_STRING",
    Source := "TRANSFORMER_SOURCE_PASSTHROUGH",
    Config := "PassthroughConfig" },
  { Name := "Null",
    Description := "Inserts a <null> string instead of the source value.",
    DataType := "TRANSFORMER_DATA_TYPE_STRING",
    Source := "TRANSFORMER_SOURCE_GENERATE_NULL",
    Config := "Nullconfig" },
  { Name := "Transform Javascript",
    Description := "Write custom javascript to transform data",
    DataType := "TRANSFORMER_DATA_TYPE_ANY",
    Source := "TRANSFORMER_SOURCE_TRANSFORM_JAVASCRIPT",
    Config := "TransformJavascriptConfig" },
  { Name := "Generate Categorical",
    Description := "Randomly selects a value from a predefined list of values",
    DataType := "TRANSFORMER_DATA_TYPE_STRING",
    Source := "TRANSFORMER_SOURCE_GENERATE_CATEGORICAL",
    Config := "GenerateCategoricalConfig" },
  { Name := "Transform Character Scramble",
    Description := "Transforms a string value by scrambling each character with another character in the same unicode block. Letters will be substituted with letters, numbers with numbers and special characters with special characters. Spaces and capitalization is preserved.",
    DataType := "TRANSFORMER_DATA_TYPE_STRING",
    Source := "TRANSFORMER_SOURCE_TRANSFORM_CHARACTER_SCRAMBLE",
    Config := "TransformCharacterScrambleConfig" },
  { Name := "Generate Javascript",
    Description := "Write custom Javascript to generate synthetic data.",
    DataType := "TRANSFORMER_DATA_TYPE_ANY",
    Source := "TRANSFORMER_SOURCE_GENERATE_JAVASCRIPT",
    Config := "GenerateJavascriptConfig" }]

/-- Lexicographic comparison of two character sequences by code point: `-1`,
`0` or `+1`. -/
def compareChars : List Char → List Char → Int
  | [], [] => 0
  | [], _ :: _ => -1
  | _ :: _, [] => 1
  | a :: as, b :: bs =>
    if a.toNat < b.toNat then -1 else if b.toNat < a.toNat then 1 else compareChars as bs

/-- Go `cmp.Compare(a, b)` on strings: `-1`, `0` or `+1` by byte-wise
comparison. On UTF-8 text the byte order is the order of the code points. -/
def cmpCompare (a b : String) : Int := compareChars a.data b.data

/-- Lines 525-527: the comparison function passed to `slices.SortFunc`. -/
def compareByName (t1 t2 : SystemTransformer) : Int :=
  cmpCompare t1.Name t2.Name

/-- A Go `map[TransformerSource]*SystemTransformer`. -/
abbrev SourceMap := TransformerSource → Option SystemTransformer

/-- Go `m[k] = v`. -/
def mapSet (m : SourceMap) (k : TransformerSource) (v : SystemTransformer) : SourceMap :=
  fun k2 => if k2 = k then some v else m k2

/-- The two package-level variables after initialisation. -/
structure Globals where
  systemTransformers : List SystemTransformer
  systemTransformerSourceMap : SourceMap

/-- Lines 524-533. `SortFunc` is Go's `slices.SortFunc`, taking the slice and
the comparison function and giving the slice as the call leaves it. -/
def init (SortFunc : List SystemTransformer → (SystemTransformer → SystemTransformer → Int) →
    List SystemTransformer) : Globals :=
  let sorted := SortFunc systemTransformers compareByName
  ⟨sorted, sorted.foldl (fun m transformer => mapSet m transformer.Source transformer)
    (fun _ => none)⟩

/-- The error `nucleuserrors.NewNotFound(msg)`; the package is outside the file
and the value is kept as its constructor and message. -/
inductive ServiceError where
  | notFound (msg : String)
  deriving DecidableEq, Repr

/-- Lines 535-542: the transformers of the response and the error. -/
def GetSystemTransformers (g : Globals) : Option (List SystemTransformer) × Option ServiceError :=
  (some g.systemTransformers, none)

/-- Lines 544-555: the transformer of the response and the error. -/
def GetSystemTransformerBySource (g : Globals) (source : TransformerSource) :
    Option SystemTransformer × Option ServiceError :=
  match g.systemTransformerSourceMap source with
  | none =>
    (none, some (ServiceError.notFound "unable to find system transformer with provided source"))
  | some transformer => (some transformer, none)

end TransformersService

/-! ## A reference implementation of the helpers

The helper packages live outside the two files. The definitions below follow
the component contracts of the specification over a small sample corpus; they
give the generators something concrete to run on. -/

namespace Ref

/-- Modelled from the spec: the package `rng` is missing. Section 4.1: a
randomizer is built from one integer seed and the same seed gives the same
draw sequence. The state is a natural number. -/
def New (seed : Int) : Nat := (seed % 65537).toNat

/-- Modelled from the spec: the package `rng` is missing. The state after one
draw (a linear congruential step). -/
def next (r : Nat) : Nat := (r * 75 + 74) % 65537

/-- Modelled from the spec: the package `rng` is missing. `Randomizer.intn(n)`
of section 4.1: a draw below `n` and the next state. -/
def Intn (r : Nat) (n : Int) : Int × Nat := ((r : Int) % n, next r)

/-- Modelled from the spec: the data set of email domains is missing. Section
3: a corpus is a sequence of values sorted ascending by length. -/
def EmailDomains : List String := ["x.io", "aol.com", "gmail.com", "yahoo.com"]

/-- Modelled from the spec: the data set is missing. Length, then first index
and count of the entries of that length. -/
def EmailDomainMap : List (Int × (Int × Int)) := [(4, (0, 1)), (7, (1, 1)), (9, (2, 2))]

/-- Modelled from the spec: the data set is missing. The lengths present in
`EmailDomains`, ascending. -/
def EmailDomainIndices : List Int := [4, 7, 9]

/-- Modelled from the spec: the data set of first names is missing. -/
def FirstNames : List String := ["Al", "Eva", "John", "Maria"]

/-- Modelled from the spec: the data set is missing. The lengths present in
`FirstNames`, ascending. -/
def FirstNameIndices : List Int := [2, 3, 4, 5]

/-- Modelled from the spec: the data set of last names is missing. -/
def LastNames : List String := ["Lee", "Smith", "Nguyen", "Smith-Jones"]

/-- Modelled from the spec: the data set is missing. The lengths present in
`LastNames`, ascending. -/
def LastNameIndices : List Int := [3, 5, 6, 11]

/-- Modelled from the spec: `transformer_utils.GenerateStringFromCorpus` is
missing. Section 4.4: restrict the corpus to the entries within the length
bounds, drop the excluded ones, pick one of the rest with the randomizer; fail
(CorpusExhausted) when nothing is left. -/
def GenerateStringFromCorpus (r : Nat) (values : List String)
    (_lengthMap : List (Int × (Int × Int))) (_indices : List Int) (minLength : Option Int)
    (maxLength : Int) (exclusions : List String) : (String × Option GoError) × Nat :=
  let candidates := values.filter (fun v =>
    decide (len v ≤ maxLength) &&
    (match minLength with
     | some m => decide (m ≤ len v)
     | none => true) &&
    !(exclusions.contains v))
  match candidates with
  | [] => (("", some (GoError.new "corpus exhausted: no value fits the length and exclusions")), r)
  | c :: cs =>
    let d := Intn r ((c :: cs).length : Int)
    (((c :: cs).getD d.1.toNat c, none), d.2)

/-- The candidate with the greatest key, the earliest one among equals. -/
def bestBy {α : Type} (key : α → Int) : List α → Option α
  | [] => none
  | x :: xs =>
    match bestBy key xs with
    | none => some x
    | some y => if key y > key x then some y else some x

/-- All index values of a table, preceded by `-1` (part omitted). -/
def indexChoices (xs : List Int) : List Int :=
  (-1) :: (List.range xs.length).map (fun i => (i : Int))

/-- Modelled from the spec: `transformer_utils.FindClosestPair` is missing.
Section 4.3: among the pairs of ceilings whose sum is within the budget, take
one with the most non-zero parts, then the greatest sum; `(-1, -1)` when
neither part fits. -/
def FindClosestPair (a b : List Int) (budget : Int) : Int × Int :=
  let all : List (Int × Int) :=
    (indexChoices a).flatMap (fun i => (indexChoices b).map (fun j => (i, j)))
  let feasible := all.filter (fun p =>
    decide (p ≠ (-1, -1)) && decide (ceilAt a p.1 + ceilAt b p.2 ≤ budget))
  let both := feasible.filter (fun p => decide (p.1 ≠ -1) && decide (p.2 ≠ -1))
  let key : Int × Int → Int := fun p => ceilAt a p.1 + ceilAt b p.2
  match bestBy key both with
  | some p => p
  | none =>
    match bestBy key feasible with
    | some p => p
    | none => (-1, -1)

/-- Modelled from the spec: `generateRandomFirstName` is missing. A draw from
the first-name corpus within the length bounds. -/
def generateRandomFirstName (r : Nat) (minLength : Option Int) (maxLength : Int) :
    (String × Option GoError) × Nat :=
  GenerateStringFromCorpus r FirstNames [] FirstNameIndices minLength maxLength []

/-- Modelled from the spec: `generateRandomLastName` is missing. A draw from
the last-name corpus within the length bounds. -/
def generateRandomLastName (r : Nat) (minLength : Option Int) (maxLength : Int) :
    (String × Option GoError) × Nat :=
  GenerateStringFromCorpus r LastNames [] LastNameIndices minLength maxLength []

/-- The alphabet of the filler strings. -/
def alphabet : List Char := "abcdefghijklmnopqrstuvwxyz".data

/-- Draws `k` characters of `alphabet`. -/
def randChars : Nat → Nat → List Char × Nat
  | 0, r => ([], r)
  | k + 1, r =>
    let d := Intn r 26
    let rest := randChars k d.2
    (alphabet.getD d.1.toNat 'a' :: rest.1, rest.2)

/-- Modelled from the spec: `transformer_utils.GetRandomCharacterString` is
missing. Section 4.1, `Randomizer.string(charset, length)`: a string of `n`
characters drawn from the randomizer. -/
def GetRandomCharacterString (r : Nat) (n : Int) : String × Nat :=
  let p := randChars n.toNat r
  (String.mk p.1, p.2)

/-- Modelled from the spec: `transformer_utils.SpecialChars` is missing. -/
def SpecialChars : String := "!@#$%^&*()-+=_ ;<>,./?"

/-- Modelled from the spec: `transformer_utils.WithoutCharacters` is missing.
The string without the characters of `chars`. -/
def WithoutCharacters (s chars : String) : String :=
  String.mk (s.data.filter (fun c => !(chars.data.contains c)))

/-- The longest prefix of at most `n` bytes. -/
def takeBytes : Nat → List Char → List Char
  | _, [] => []
  | n, c :: cs => if c.utf8Size ≤ n then c :: takeBytes (n - c.utf8Size) cs else []

/-- Modelled from the spec: `transformer_utils.TrimStringIfExceeds` is missing.
The string itself when it is within `n` bytes, its first `n` bytes otherwise. -/
def TrimStringIfExceeds (s : String) (n : Int) : String :=
  if len s > n then String.mk (takeBytes n.toNat s.data) else s

/-- Modelled from the spec: `strings.ToLower` is the Go library function; on
ASCII text it maps `A`-`Z` to `a`-`z` and leaves the rest. -/
def ToLower (s : String) : String := String.mk (s.data.map Char.toLower)

/-- The reference helpers. -/
def helpers : Helpers Nat where
  New := New
  Intn := Intn
  EmailDomains := EmailDomains
  EmailDomainMap := EmailDomainMap
  EmailDomainIndices := EmailDomainIndices
  FirstNameIndices := FirstNameIndices
  LastNameIndices := LastNameIndices
  GenerateStringFromCorpus := GenerateStringFromCorpus
  FindClosestPair := FindClosestPair
  generateRandomFirstName := generateRandomFirstName
  generateRandomLastName := generateRandomLastName
  GetRandomCharacterString := GetRandomCharacterString
  WithoutCharacters := WithoutCharacters
  SpecialChars := SpecialChars
  TrimStringIfExceeds := TrimStringIfExceeds
  ToLower := ToLower

/-- Places `x` before the first element it is smaller than. -/
def insertBy {α : Type} (cmp : α → α → Int) (x : α) : List α → List α
  | [] => [x]
  | y :: ys => if cmp x y < 0 then x :: y :: ys else y :: insertBy cmp x ys

/-- Modelled from the spec: `slices.SortFunc` is the Go library function; it
sorts the slice in ascending order as determined by `cmp`. An insertion sort. -/
def SortFunc {α : Type} (l : List α) (cmp : α → α → Int) : List α :=
  l.foldr (insertBy cmp) []

end Ref

/-! ## Strings and machine integers -/

theorem len_nonneg (s : String) : 0 ≤ len s := by
  unfold len; exact Int.ofNat_nonneg _

theorem len_append (a b : String) : len (a ++ b) = len a + len b := by
  cases a with
  | mk as =>
    cases b with
    | mk bs =>
      show ((String.utf8Len (as ++ bs) : Nat) : Int) = (String.utf8Len as : Int) + String.utf8Len bs
      rw [String.utf8Len_append]; push_cast; rfl

theorem len_eq_zero_iff (s : String) : len s = 0 ↔ s = "" := by
  cases s with
  | mk cs =>
    show ((String.utf8Len cs : Nat) : Int) = 0 ↔ String.mk cs = String.mk []
    rw [Int.natCast_eq_zero, String.utf8Len_eq_zero]
    exact ⟨fun hc => by rw [hc], fun hc => congrArg String.data hc⟩

theorem len_empty : len "" = 0 := (len_eq_zero_iff "").2 rfl

theorem len_at : len "@" = 1 := by decide

theorem wrap64_of_isInt64 {x : Int} (hx : isInt64 x) : wrap64 x = x := by
  obtain ⟨h1, h2⟩ := hx
  unfold minInt64 at h1
  unfold maxInt64 at h2
  unfold wrap64
  omega

theorem sub64_eq {a b : Int} (hx : isInt64 (a - b)) : sub64 a b = a - b :=
  wrap64_of_isInt64 hx

theorem isASCII_empty : isASCII "" = true := rfl

theorem joinPieces_nonempty (a b : String) :
    joinPieces ((if a ≠ "" then [a] else []) ++ (if b ≠ "" then [b] else [])) = a ++ b := by
  by_cases ha : a = "" <;> by_cases hb : b = "" <;>
    simp [joinPieces, String.intercalate, String.intercalate.go, ha, hb]

/-! ## The reference helpers keep the contracts -/

namespace Ref

theorem getD_mem_cons {α : Type} (k : Nat) (c : α) (cs : List α) :
    (c :: cs).getD k c ∈ c :: cs := by
  rw [List.getD_eq_getElem?_getD]
  cases hk : (c :: cs)[k]? with
  | none => simp
  | some x => simpa using List.getElem?_mem hk

theorem sample_spec {r : Nat} {values : List String} {m : List (Int × (Int × Int))}
    {ix : List Int} {mn : Option Int} {n : Int} {ex : List String} {s : String} {r1 : Nat}
    (hs : GenerateStringFromCorpus r values m ix mn n ex = ((s, none), r1)) :
    s ∈ values ∧ len s ≤ n ∧ s ∉ ex := by
  unfold GenerateStringFromCorpus at hs
  simp only at hs
  split at hs
  · simp at hs
  · rename_i c cs hc
    have hmem : (c :: cs).getD (Intn r ((c :: cs).length : Int)).1.toNat c ∈ c :: cs :=
      getD_mem_cons _ _ _
    have hval : (c :: cs).getD (Intn r ((c :: cs).length : Int)).1.toNat c = s := by
      have := congrArg (fun x => x.1.1) hs
      simpa using this
    rw [hval, ← hc, List.mem_filter] at hmem
    obtain ⟨h1, h2⟩ := hmem
    simp only [Bool.and_eq_true, decide_eq_true_eq] at h2
    have h3 : s ∉ ex := by simpa using h2.2
    exact ⟨h1, h2.1.1, h3⟩

theorem bestBy_mem {α : Type} (key : α → Int) :
    ∀ (l : List α) (p : α), bestBy key l = some p → p ∈ l
  | [], p, hp => by simp [bestBy] at hp
  | x :: xs, p, hp => by
    unfold bestBy at hp
    cases hb : bestBy key xs with
    | none =>
      rw [hb] at hp
      simp only [Option.some.injEq] at hp
      simp [hp]
    | some y =>
      rw [hb] at hp
      simp only at hp
      have hy := bestBy_mem key xs y hb
      split at hp
      · simp only [Option.some.injEq] at hp
        subst hp
        exact List.mem_cons_of_mem _ hy
      · simp only [Option.some.injEq] at hp
        simp [hp]

theorem findClosestPair_le (a b : List Int) (n i j : Int)
    (hp : FindClosestPair a b n = (i, j)) (hne : i ≠ -1 ∨ j ≠ -1) :
    ceilAt a i + ceilAt b j ≤ n := by
  unfold FindClosestPair at hp
  simp only at hp
  split at hp
  · rename_i p hb
    have hm := bestBy_mem _ _ _ hb
    rw [List.mem_filter, List.mem_filter] at hm
    have h2 := hm.1.2
    simp only [Bool.and_eq_true, decide_eq_true_eq] at h2
    rw [hp] at h2
    exact h2.2
  · split at hp
    · rename_i p hb
      have hm := bestBy_mem _ _ _ hb
      rw [List.mem_filter] at hm
      have h2 := hm.2
      simp only [Bool.and_eq_true, decide_eq_true_eq] at h2
      rw [hp] at h2
      exact h2.2
    · simp only [Prod.mk.injEq] at hp
      omega

theorem utf8Size_of_ascii (c : Char) (hc : c.toNat < 128) : c.utf8Size = 1 := by
  have hv : c.val ≤ 127 := by
    show c.val.toNat ≤ 127
    have : c.toNat = c.val.toNat := rfl
    omega
  simp [Char.utf8Size, hv]

theorem toLower_ascii (c : Char) (hc : c.toNat < 128) : (Char.toLower c).toNat < 128 := by
  unfold Char.toLower
  simp only
  split
  · rename_i hr
    have h1 : c.toNat + 32 < 55296 := by omega
    have hv : (c.toNat + 32).isValidChar := Or.inl h1
    rw [Char.ofNat, dif_pos hv]
    show c.toNat + 32 < 128
    omega
  · exact hc

theorem len_mk_of_ascii : ∀ cs : List Char, (∀ c ∈ cs, c.toNat < 128) →
    String.utf8Len cs = cs.length
  | [], _ => rfl
  | c :: cs, hc => by
    rw [String.utf8Len_cons, List.length_cons, len_mk_of_ascii cs (fun x hx => hc x (by simp [hx])),
      utf8Size_of_ascii c (hc c (by simp))]

theorem alphabet_ascii : ∀ c ∈ alphabet, c.toNat < 128 := by decide

theorem randChars_ascii : ∀ (k r : Nat), ∀ c ∈ (randChars k r).1, c.toNat < 128
  | 0, _, c, hc => by simp [randChars] at hc
  | k + 1, r, c, hc => by
    simp only [randChars, List.mem_cons] at hc
    rcases hc with hc | hc
    · have hm : alphabet.getD (Intn r 26).1.toNat (Char.ofNat 97) ∈ alphabet :=
        getD_mem_cons _ _ _
      rw [hc]
      exact alphabet_ascii _ hm
    · exact randChars_ascii k _ c hc

theorem randChars_length : ∀ (k r : Nat), (randChars k r).1.length = k
  | 0, _ => rfl
  | k + 1, r => by simp [randChars, randChars_length k]

theorem takeBytes_le : ∀ (cs : List Char) (n : Nat), String.utf8Len (takeBytes n cs) ≤ n
  | [], n => by simp [takeBytes]
  | c :: cs, n => by
    unfold takeBytes
    split
    · rename_i hc
      have := takeBytes_le cs (n - c.utf8Size)
      rw [String.utf8Len_cons]
      omega
    · simp

theorem firstNames_ascii : ∀ x ∈ FirstNames, isASCII x = true := by decide

theorem lastNames_ascii : ∀ x ∈ LastNames, isASCII x = true := by decide

theorem helpers_lawful : Lawful helpers where
  domain_le := fun r n ex d r1 hs =>
    (sample_spec (show GenerateStringFromCorpus r EmailDomains EmailDomainMap EmailDomainIndices
      none n ex = ((d, none), r1) from hs)).2.1
  pair_le := fun n i j hp hne => findClosestPair_le _ _ n i j hp hne
  first_le := fun r mn n s r1 hs =>
    (sample_spec (show GenerateStringFromCorpus r FirstNames [] FirstNameIndices mn n [] =
      ((s, none), r1) from hs)).2.1
  last_le := fun r mn n s r1 hs =>
    (sample_spec (show GenerateStringFromCorpus r LastNames [] LastNameIndices mn n [] =
      ((s, none), r1) from hs)).2.1
  first_ascii := fun r mn n s r1 hs =>
    firstNames_ascii s (sample_spec (show GenerateStringFromCorpus r FirstNames []
      FirstNameIndices mn n [] = ((s, none), r1) from hs)).1
  last_ascii := fun r mn n s r1 hs =>
    lastNames_ascii s (sample_spec (show GenerateStringFromCorpus r LastNames []
      LastNameIndices mn n [] = ((s, none), r1) from hs)).1
  chars_len := fun r n hn => by
    show ((String.utf8Len (randChars n.toNat r).1 : Nat) : Int) = n
    rw [len_mk_of_ascii _ (randChars_ascii _ _), randChars_length]
    omega
  chars_ascii := fun r n => by
    show List.all (randChars n.toNat r).1 (fun c => decide (c.toNat < 128)) = true
    rw [List.all_eq_true]
    intro c hc
    simpa using randChars_ascii _ _ c hc
  trim_le := fun s n hn => by
    show len (if len s > n then String.mk (takeBytes n.toNat s.data) else s) ≤ n
    split
    · show ((String.utf8Len (takeBytes n.toNat s.data) : Nat) : Int) ≤ n
      have := takeBytes_le s.data n.toNat
      omega
    · omega
  strip_le := fun s => by
    show ((String.utf8Len (s.data.filter _) : Nat) : Int) ≤ (String.utf8Len s.data : Nat)
    exact Int.ofNat_le.2 (String.utf8Len_le_of_sublist (List.filter_sublist _))
  strip_ascii := fun s hs => by
    show List.all (s.data.filter _) (fun c => decide (c.toNat < 128)) = true
    have hs2 : List.all s.data (fun c => decide (c.toNat < 128)) = true := hs
    rw [List.all_eq_true] at hs2 ⊢
    intro c hc
    exact hs2 c (List.mem_of_mem_filter hc)
  lower_le := fun s hs => by
    have hs2 : List.all s.data (fun c => decide (c.toNat < 128)) = true := hs
    rw [List.all_eq_true] at hs2
    show ((String.utf8Len (s.data.map Char.toLower) : Nat) : Int) ≤ (String.utf8Len s.data : Nat)
    rw [len_mk_of_ascii s.data (fun c hc => by simpa using hs2 c hc),
      len_mk_of_ascii (s.data.map Char.toLower) (fun c hc => by
        rw [List.mem_map] at hc
        obtain ⟨d, hd, rfl⟩ := hc
        exact toLower_ascii d (by simpa using hs2 d hd))]
    simp

end Ref

/-! ## Name assembly -/

theorem append_eq_empty {a b : String} (hab : a ++ b = "") : a = "" ∧ b = "" := by
  have h0 : len (a ++ b) = 0 := (len_eq_zero_iff _).2 hab
  rw [len_append] at h0
  have ha := len_nonneg a
  have hb := len_nonneg b
  exact ⟨(len_eq_zero_iff a).1 (by omega), (len_eq_zero_iff b).1 (by omega)⟩

theorem joinName_none {h : Helpers R} {f l v : String} (hj : joinName h f l = (v, none)) :
    v = h.ToLower (h.WithoutCharacters f h.SpecialChars) ++
        h.ToLower (h.WithoutCharacters l h.SpecialChars) ∧ v ≠ "" := by
  unfold joinName at hj
  simp only at hj
  split at hj
  · simp at hj
  · rename_i hne
    rw [joinPieces_nonempty] at hj
    have hv := (Prod.mk.inj hj).1
    refine ⟨hv.symm, ?_⟩
    intro hv0
    rw [← hv] at hv0
    exact hne (append_eq_empty hv0)

theorem norm_le {h : Helpers R} (hl : Lawful h) {s : String} (hs : isASCII s = true) :
    len (h.ToLower (h.WithoutCharacters s h.SpecialChars)) ≤ len s :=
  le_trans (hl.lower_le _ (hl.strip_ascii s hs)) (hl.strip_le s)

theorem index64_ceilAt {xs : List Int} {i a : Int} (hi : i ≠ -1) (hx : index64 xs i = some a) :
    ceilAt xs i = a := by
  unfold ceilAt
  rw [if_neg hi, hx]
  rfl

theorem fallback_skip (h : Helpers R) (r : R) (mn : Option Int) (B : Int) {i j : Int}
    (hne : ¬ (i = -1 ∧ j = -1)) : fallbackLastName h r mn B i j = ("", r) := by
  unfold fallbackLastName
  rw [if_neg hne]

theorem fallback_spec {h : Helpers R} (hl : Lawful h) (r : R) (mn : Option Int) {B : Int}
    (hB : 0 ≤ B) :
    isASCII (fallbackLastName h r mn B (-1) (-1)).1 = true ∧
      len (fallbackLastName h r mn B (-1) (-1)).1 ≤ B := by
  unfold fallbackLastName
  rw [if_pos ⟨rfl, rfl⟩]
  split
  · rename_i r2 hg
    exact ⟨hl.chars_ascii _ _, le_of_eq (hl.chars_len _ _ hB)⟩
  · rename_i lnm r2 hg
    exact ⟨hl.last_ascii _ _ _ _ _ hg, hl.last_le _ _ _ _ _ hg⟩

theorem assemble_len_le {h : Helpers R} (hl : Lawful h) {r r1 : R} {mn : Option Int}
    {B : Int} {v : String} (hB : 0 ≤ B)
    (hrun : assembleNameForEmail h r mn B = some ((v, none), r1)) : len v ≤ B := by
  unfold assembleNameForEmail at hrun
  rcases hp : h.FindClosestPair h.FirstNameIndices h.LastNameIndices B with ⟨i, j⟩
  simp only [hp] at hrun
  split at hrun
  · simp at hrun
  · simp at hrun
  · rename_i fn ra hfirst
    split at hrun
    · simp at hrun
    · simp at hrun
    · rename_i ln rb hlast
      simp only [Option.some.injEq, Prod.mk.injEq] at hrun
      obtain ⟨hv, -⟩ := joinName_none hrun.1
      have hfn : isASCII fn = true ∧ len fn ≤ ceilAt h.FirstNameIndices i := by
        by_cases hi : i = -1
        · simp only [hi, ne_eq, not_true_eq_false, if_false, Option.some.injEq, Prod.mk.injEq] at hfirst
          rw [← hfirst.1.1]
          exact ⟨rfl, by simp [ceilAt, len_empty, hi]⟩
        · rw [if_pos hi] at hfirst
          split at hfirst
          · simp at hfirst
          · rename_i a ha
            simp only [Option.some.injEq] at hfirst
            exact ⟨hl.first_ascii _ _ _ _ _ hfirst,
              (index64_ceilAt hi ha) ▸ hl.first_le _ _ _ _ _ hfirst⟩
      have hnf := norm_le hl hfn.1
      rw [hv, len_append]
      by_cases hj : j = -1
      · simp only [hj, ne_eq, not_true_eq_false, if_false, Option.some.injEq,
          Prod.mk.injEq] at hlast
        by_cases hi : i = -1
        · have hfb := fallback_spec hl r mn hB
          rw [hi] at hlast
          rw [hlast.1.1] at hfb
          have hnl := norm_le hl hfb.1
          have hc : ceilAt h.FirstNameIndices i = 0 := by simp [ceilAt, hi]
          have := hfn.2
          have := hfb.2
          have := len_nonneg (h.ToLower (h.WithoutCharacters ln h.SpecialChars))
          omega
        · have hsk := fallback_skip h r mn B (i := i) (j := -1) (fun hc => hi hc.1)
          rw [hsk] at hlast
          have hnl : len (h.ToLower (h.WithoutCharacters ln h.SpecialChars)) ≤ 0 := by
            rw [← hlast.1.1]
            simpa [len_empty] using norm_le hl isASCII_empty
          have hpl := hl.pair_le B i j hp (Or.inl hi)
          have hc : ceilAt h.LastNameIndices j = 0 := by simp [ceilAt, hj]
          have := hfn.2
          omega
      · rw [if_pos hj] at hlast
        split at hlast
        · simp at hlast
        · rename_i b hb
          simp only [Option.some.injEq] at hlast
          have hnl := norm_le hl (hl.last_ascii _ _ _ _ _ hlast)
          have h1 := hl.last_le _ _ _ _ _ hlast
          rw [← index64_ceilAt hj hb] at h1
          have hpl := hl.pair_le B i j hp (Or.inr hj)
          have := hfn.2
          omega

theorem generateNameForEmail_nil (h : Helpers R) (r : R) (B : Int) :
    generateNameForEmail h r none B = assembleNameForEmail h r none B := by
  unfold generateNameForEmail
  cases hA : assembleNameForEmail h r none B with
  | none => rfl
  | some x =>
    obtain ⟨⟨v, e⟩, r1⟩ := x
    cases e <;> rfl

/-! ## Length bound of the generated email -/

theorem sub64_two {M : Int} (hlo : minInt64 + 2 ≤ M) (hhi : M ≤ maxInt64) :
    sub64 M 2 = M - 2 := by
  unfold minInt64 at hlo
  unfold maxInt64 at hhi
  exact sub64_eq ⟨by unfold minInt64; omega, by unfold maxInt64; omega⟩

theorem budget_eq {M d : Int} (hM : M ≤ maxInt64) (h0 : 0 ≤ d) (hd : d ≤ M - 2) :
    sub64 (sub64 M d) 1 = M - d - 1 := by
  unfold maxInt64 at hM
  have h1 : sub64 M d = M - d := sub64_eq ⟨by unfold minInt64; omega, by unfold maxInt64; omega⟩
  rw [h1]
  exact sub64_eq ⟨by unfold minInt64; omega, by unfold maxInt64; omega⟩

theorem generateFullnameEmail_len_le {h : Helpers R} (hl : Lawful h) {r r1 : R} {M : Int}
    {ex : List String} {out : String} (hlo : minInt64 + 2 ≤ M) (hhi : M ≤ maxInt64)
    (hrun : generateFullnameEmail h r M ex = some ((out, none), r1)) : len out ≤ M := by
  unfold generateFullnameEmail at hrun
  simp only [sub64_two hlo hhi] at hrun
  split at hrun
  · simp at hrun
  · rename_i hg
    split at hrun
    · simp at hrun
    · rename_i d ra hd
      have hdl := hl.domain_le _ _ _ _ _ hd
      have hd0 := len_nonneg d
      rw [budget_eq hhi hd0 hdl, generateNameForEmail_nil] at hrun
      split at hrun
      · simp at hrun
      · simp at hrun
      · rename_i nm rb hn
        simp only [Option.some.injEq, Prod.mk.injEq, and_true] at hrun
        have hnl := assemble_len_le hl (by omega) hn
        rw [← hrun.1, len_append, len_append, len_at]
        omega

theorem generateUuidEmail_len_le {h : Helpers R} (hl : Lawful h) {r r1 : R} {u : String}
    {M : Int} {ex : List String} {out : String} (hlo : minInt64 + 2 ≤ M) (hhi : M ≤ maxInt64)
    (hrun : generateUuidEmail h r u M ex = some ((out, none), r1)) : len out ≤ M := by
  unfold generateUuidEmail at hrun
  simp only [sub64_two hlo hhi] at hrun
  split at hrun
  · simp at hrun
  · rename_i hg
    split at hrun
    · simp at hrun
    · rename_i d ra hd
      have hdl := hl.domain_le _ _ _ _ _ hd
      have hd0 := len_nonneg d
      rw [budget_eq hhi hd0 hdl] at hrun
      split at hrun
      · simp at hrun
      · simp only [Option.some.injEq, Prod.mk.injEq, and_true] at hrun
        have ht := hl.trim_le (removeHyphens u) (M - len d - 1) (by omega)
        rw [← hrun.1, len_append, len_append, len_at]
        omega

theorem generateRandomEmail_len_le {h : Helpers R} (hl : Lawful h) {r r1 : R} {u : String}
    {M : Int} {t : generateEmailType} {ex : List String} {out : String}
    (hlo : minInt64 + 2 ≤ M) (hhi : M ≤ maxInt64)
    (hrun : generateRandomEmail h r u M t ex = some ((out, none), r1)) : len out ≤ M := by
  unfold generateRandomEmail at hrun
  generalize (if t = anyEmailType then getRandomEmailType h r else (t, r)) = tr at hrun
  simp only at hrun
  split at hrun
  · exact generateUuidEmail_len_le hl hlo hhi hrun
  · exact generateFullnameEmail_len_le hl hlo hhi hrun

/-- Supporting fact for C1 and C2: at the two smallest `int64` values the
subtraction `maxLength - 2` wraps around to a positive number. -/
theorem sub64_two_wraps :
    sub64 (-9223372036854775808) 2 = 9223372036854775806 ∧
      sub64 (-9223372036854775807) 2 = 9223372036854775807 := by
  decide

/-- C1: evaluation at the failing input. With `maxLength = -9223372036854775807`
the subtraction `maxLength - 2` wraps to `9223372036854775807`, the length guard
lets the request through, and `generateRandomEmail` succeeds with an email of 16
bytes, which is longer than `maxLength`. Everywhere else the bound holds, see
`generateRandomEmail_len_le`. -/
theorem generateRandomEmail_exceeds_maxLength_on_wraparound :
    generateRandomEmail Ref.helpers (Ref.New 5) "123e4567-e89b-42d3-a456-426614174000"
        (-9223372036854775807) fullNameEmailType [] =
      some (("evasmith@aol.com", none), 40843) ∧
    len "evasmith@aol.com" = 16 ∧
    ¬ (len "evasmith@aol.com" ≤ -9223372036854775807) := by
  decide

/-! ## The length guard -/

/-- Supporting fact for C2: for `-2^63 + 2 ≤ maxLength ≤ 2` both generators
return the length error and the empty string, and hand the randomizer back
untouched: nothing was drawn. -/
theorem length_guard_fires (h : Helpers R) (r : R) (u : String) (M : Int) (ex : List String)
    (hlo : minInt64 + 2 ≤ M) (hM : M ≤ 2) :
    generateFullnameEmail h r M ex =
        some (("", some (GoError.new (lengthInfeasibleMsg M))), r) ∧
      generateUuidEmail h r u M ex =
        some (("", some (GoError.new (lengthInfeasibleMsg M))), r) := by
  have hhi : M ≤ maxInt64 := by unfold maxInt64; omega
  have hg : sub64 M 2 ≤ 0 := by rw [sub64_two hlo hhi]; omega
  unfold generateFullnameEmail generateUuidEmail
  simp only [hg, if_true, and_self]

/-- Supporting fact for C2: for `3 ≤ maxLength` the guard does not fire. -/
theorem length_guard_passes (M : Int) (hM : 3 ≤ M) (hhi : M ≤ maxInt64) : ¬ sub64 M 2 ≤ 0 := by
  have hlo : minInt64 + 2 ≤ M := by unfold minInt64; omega
  rw [sub64_two hlo hhi]
  omega

/-- Supporting fact for C1 and C2, for any helpers: with
`maxLength = -9223372036854775807` neither generator stops at the guard; the
domain sampler is called with the ceiling `9223372036854775807`. -/
theorem length_guard_wraparound (h : Helpers R) (r : R) (u : String) (ex : List String) :
    generateFullnameEmail h r (-9223372036854775807) ex =
      (match getRandomEmailDomain h r 9223372036854775807 ex with
       | ((_, some err), r1) => some (("", some err), r1)
       | ((domain, none), r1) =>
         match generateNameForEmail h r1 none
             (sub64 (sub64 (-9223372036854775807) (len domain)) 1) with
         | none => none
         | some ((_, some err), r2) =>
           some (("", some (GoError.wrap
             ("unable to generate name for email: " ++ err.Error) err)), r2)
         | some ((generatename, none), r2) =>
           some ((generatename ++ "@" ++ domain, none), r2)) ∧
    ∀ domain r1, getRandomEmailDomain h r 9223372036854775807 ex = ((domain, none), r1) →
      generateUuidEmail h r u (-9223372036854775807) ex =
        (if h.TrimStringIfExceeds (removeHyphens u)
              (sub64 (sub64 (-9223372036854775807) (len domain)) 1) = "" then
          some (("", some (GoError.new
            ("for the given max length, unable to use a uuid to generate an email for the given length: "
              ++ toString (-9223372036854775807 : Int)))), r1)
        else
          some ((h.TrimStringIfExceeds (removeHyphens u)
            (sub64 (sub64 (-9223372036854775807) (len domain)) 1) ++ "@" ++ domain, none), r1)) := by
  have hw : sub64 (-9223372036854775807) 2 = 9223372036854775807 := by decide
  have hg : ¬ ((9223372036854775807 : Int) ≤ 0) := by decide
  constructor
  · unfold generateFullnameEmail
    simp only [hw, hg, if_false]
  · intro domain r1 hd
    unfold generateUuidEmail
    simp only [hw, hg, if_false, hd]

/-- C2: evaluation at the failing input. `maxLength = -9223372036854775807` is
below 2, yet neither generator returns the length error: `maxLength - 2` wraps
to a positive ceiling, the domain sampler and the name or uuid step run, and
both calls succeed with a non-empty value. -/
theorem length_guard_skipped_on_wraparound :
    generateFullnameEmail Ref.helpers (Ref.New 1) (-9223372036854775807) [] =
      some (("evasmith@aol.com", none), 57305) ∧
    generateUuidEmail Ref.helpers (Ref.New 1) "123e4567-e89b-42d3-a456-426614174000"
        (-9223372036854775807) [] =
      some (("123e4567e89b42d3a456426614174000@aol.com", none), 149) := by
  decide

/-! ## Failure of the domain sampler -/

/-- C3: for `3 ≤ maxLength`, when the domain sampler fails for the ceiling
`maxLength - 2` with the error `e`, `generateFullnameEmail` returns the empty
string with that very error `e` (not wrapped, not replaced), and the randomizer
it hands back is the one the sampler left: no name was generated. -/
theorem generateFullnameEmail_sampler_error (h : Helpers R) (r r1 : R) (M : Int)
    (ex : List String) (v : String) (e : GoError) (hM : 3 ≤ M) (hhi : M ≤ maxInt64)
    (hs : getRandomEmailDomain h r (M - 2) ex = ((v, some e), r1)) :
    generateFullnameEmail h r M ex = some (("", some e), r1) := by
  have hlo : minInt64 + 2 ≤ M := by unfold minInt64; omega
  have hg : ¬ sub64 M 2 ≤ 0 := length_guard_passes M hM hhi
  unfold generateFullnameEmail
  simp only [hg, if_false]
  rw [sub64_two hlo hhi, hs]

/-- C3, at a concrete input: `maxLength = 30` and every domain of the corpus
excluded; the sampler reports the exhausted corpus and so does the generator. -/
theorem generateFullnameEmail_sampler_error_witness :
    getRandomEmailDomain Ref.helpers (Ref.New 5) (30 - 2) Ref.EmailDomains =
        (("", some (GoError.new "corpus exhausted: no value fits the length and exclusions")), 5) ∧
      generateFullnameEmail Ref.helpers (Ref.New 5) 30 Ref.EmailDomains =
        some (("", some (GoError.new
          "corpus exhausted: no value fits the length and exclusions")), 5) :=
  ⟨by decide,
   generateFullnameEmail_sampler_error Ref.helpers (Ref.New 5) 5 30 Ref.EmailDomains ""
     (GoError.new "corpus exhausted: no value fits the length and exclusions")
     (by decide) (by decide) (by decide)⟩

/-! ## Form of the generated email -/

theorem countAt_append (a b : String) : countAt (a ++ b) = countAt a + countAt b := by
  unfold countAt
  rw [String.data_append, List.count_append]

theorem countAt_email (loc domain : String) (hl : countAt loc = 0) (hd : countAt domain = 0) :
    countAt (loc ++ "@" ++ domain) = 1 := by
  rw [countAt_append, countAt_append, hl, hd]
  rfl

theorem generateFullnameEmail_form {h : Helpers R} {r r1 : R} {M : Int} {ex : List String}
    {out : String} (hrun : generateFullnameEmail h r M ex = some ((out, none), r1)) :
    ∃ (loc domain : String) (r2 : R),
      getRandomEmailDomain h r (sub64 M 2) ex = ((domain, none), r2) ∧
      out = loc ++ "@" ++ domain ∧ loc ≠ "" ∧
      ∃ fn ln, loc = h.ToLower (h.WithoutCharacters fn h.SpecialChars) ++
        h.ToLower (h.WithoutCharacters ln h.SpecialChars) := by
  unfold generateFullnameEmail at hrun
  simp only at hrun
  split at hrun
  · simp at hrun
  · split at hrun
    · simp at hrun
    · rename_i d ra hd
      rw [generateNameForEmail_nil] at hrun
      split at hrun
      · simp at hrun
      · simp at hrun
      · rename_i nm rb hn
        simp only [Option.some.injEq, Prod.mk.injEq, and_true] at hrun
        refine ⟨nm, d, ra, hd, hrun.1.symm, ?_⟩
        unfold assembleNameForEmail at hn
        simp only at hn
        split at hn
        · simp at hn
        · simp at hn
        · split at hn
          · simp at hn
          · simp at hn
          · rename_i fn _ _ _ ln _ _
            simp only [Option.some.injEq, Prod.mk.injEq] at hn
            obtain ⟨hv, hne⟩ := joinName_none hn.1
            exact ⟨hne, fn, ln, hv⟩

theorem generateUuidEmail_form {h : Helpers R} {r r1 : R} {u : String} {M : Int}
    {ex : List String} {out : String}
    (hrun : generateUuidEmail h r u M ex = some ((out, none), r1)) :
    ∃ (loc domain : String) (r2 : R),
      getRandomEmailDomain h r (sub64 M 2) ex = ((domain, none), r2) ∧
      out = loc ++ "@" ++ domain ∧ loc ≠ "" ∧
      loc = h.TrimStringIfExceeds (removeHyphens u) (sub64 (sub64 M (len domain)) 1) := by
  unfold generateUuidEmail at hrun
  simp only at hrun
  split at hrun
  · simp at hrun
  · split at hrun
    · simp at hrun
    · rename_i d ra hd
      split at hrun
      · simp at hrun
      · rename_i hne
        simp only [Option.some.injEq, Prod.mk.injEq, and_true] at hrun
        exact ⟨_, d, ra, hd, hrun.1.symm, hne, rfl⟩

/-! ## Determinism -/

/-- Supporting fact for C4: with an email type other than `uuidv4` and `any`
the result does not depend on the value drawn by `uuid.NewString()`; it is a
function of the randomizer state and the parameters. -/
theorem generateRandomEmail_fullname_deterministic (h : Helpers R) (r : R) (u1 u2 : String)
    (M : Int) (t : generateEmailType) (ex : List String) (ht : t ≠ uuidV4EmailType)
    (ha : t ≠ anyEmailType) :
    generateRandomEmail h r u1 M t ex = generateRandomEmail h r u2 M t ex := by
  unfold generateRandomEmail
  simp only [ha, if_false, ht]

theorem append_at_cancel {a b d : String} (hab : a ++ "@" ++ d = b ++ "@" ++ d) : a = b := by
  have h1 := congrArg String.data hab
  simp only [String.data_append] at h1
  have h2 := List.append_cancel_right h1
  have h3 := List.append_cancel_right h2
  cases a
  cases b
  simp only at h3
  rw [h3]

/-- Supporting fact for C4, for any helpers: two successful runs of
`generateUuidEmail` from the same randomizer state with the same parameters
draw the same domain `d`, and they return different emails as soon as the two
uuid values, trimmed to the budget that `d` leaves, differ. -/
theorem generateUuidEmail_depends_on_uuid (h : Helpers R) (r r0 r1 r2 : R) (u1 u2 : String)
    (M : Int) (ex : List String) (d o1 o2 : String)
    (hd : getRandomEmailDomain h r (sub64 M 2) ex = ((d, none), r0))
    (h1 : generateUuidEmail h r u1 M ex = some ((o1, none), r1))
    (h2 : generateUuidEmail h r u2 M ex = some ((o2, none), r2))
    (hne : h.TrimStringIfExceeds (removeHyphens u1) (sub64 (sub64 M (len d)) 1) ≠
      h.TrimStringIfExceeds (removeHyphens u2) (sub64 (sub64 M (len d)) 1)) : o1 ≠ o2 := by
  obtain ⟨l1, d1, s1, hd1, ho1, -, hl1⟩ := generateUuidEmail_form h1
  obtain ⟨l2, d2, s2, hd2, ho2, -, hl2⟩ := generateUuidEmail_form h2
  rw [hd] at hd1 hd2
  simp only [Prod.mk.injEq, and_true] at hd1 hd2
  obtain ⟨hdd1, -⟩ := hd1
  obtain ⟨hdd2, -⟩ := hd2
  subst hdd1
  subst hdd2
  intro ho
  rw [ho1, ho2] at ho
  have := append_at_cancel ho
  rw [hl1, hl2] at this
  exact hne this

/-- C4: evaluation at the failing input. Two runs with `maxLength = 10`, email
type `uuidv4` and a fresh randomizer built from the seed 42 return different
emails when `uuid.NewString()` returns different values: the local part comes
from the uuid package, not from the seeded randomizer. -/
theorem generateRandomEmail_uuid_not_seeded :
    generateRandomEmail Ref.helpers (Ref.New 42) "123e4567-e89b-42d3-a456-426614174000" 10
        uuidV4EmailType [] = some (("123e4@x.io", none), 3224) ∧
    generateRandomEmail Ref.helpers (Ref.New 42) "9b2f0c1a-7d4e-4f3b-8a6c-5e1d2f3a4b5c" 10
        uuidV4EmailType [] = some (("9b2f0@x.io", none), 3224) := by
  decide

/-! ## generate_username -/

/-- Supporting fact for C5: the two outcomes of `generateUsername` in terms of
the two draws it makes, the initial first and the last name after it. -/
theorem generateUsername_eq (h : Helpers R) (r : R) (M : Int) :
    (∀ ln r1, h.generateRandomLastName (h.GetRandomCharacterString r 1).2 none (sub64 M 1) =
        ((ln, none), r1) →
      generateUsername h r M =
        (((h.GetRandomCharacterString r 1).1 ++ h.ToLower ln, none), r1)) ∧
    (∀ v e r1, h.generateRandomLastName (h.GetRandomCharacterString r 1).2 none (sub64 M 1) =
        ((v, some e), r1) →
      generateUsername h r M = (("", some e), r1)) := by
  constructor
  · intro ln r1 hg
    unfold generateUsername
    simp only [hg]
  · intro v e r1 hg
    unfold generateUsername
    simp only [hg]

/-- Supporting fact for C5: for every `maxLength` above the smallest `int64`
a generated username is no longer than `maxLength`. -/
theorem generateUsername_len_le {h : Helpers R} (hl : Lawful h) {r r1 : R} {M : Int}
    {out : String} (hlo : minInt64 + 1 ≤ M) (hhi : M ≤ maxInt64)
    (hrun : generateUsername h r M = ((out, none), r1)) : len out ≤ M := by
  have hsub : sub64 M 1 = M - 1 := by
    unfold minInt64 at hlo
    unfold maxInt64 at hhi
    exact sub64_eq ⟨by unfold minInt64; omega, by unfold maxInt64; omega⟩
  unfold generateUsername at hrun
  simp only [hsub] at hrun
  split at hrun
  · simp at hrun
  · rename_i ln r2 hg
    simp only [Prod.mk.injEq, and_true] at hrun
    have h1 := hl.last_le _ _ _ _ _ hg
    have h2 := hl.lower_le _ (hl.last_ascii _ _ _ _ _ hg)
    have h3 := hl.chars_len r 1 (by omega)
    rw [← hrun.1, len_append]
    omega

/-- C5: evaluation at the failing input. With `maxLength = -9223372036854775808`
the ceiling `maxLength - 1` of the last name wraps to `9223372036854775807`, a
last name is drawn and the username `hsmith-jones` of 12 bytes comes back, which
is longer than `maxLength`. For every other `maxLength` the bound holds, see
`generateUsername_len_le`, and the form of the result is `generateUsername_eq`. -/
theorem generateUsername_exceeds_maxLength_on_wraparound :
    sub64 (-9223372036854775808) 1 = 9223372036854775807 ∧
    generateUsername Ref.helpers (Ref.New 7) (-9223372036854775808) =
      (("hsmith-jones", none), 44999) ∧
    ¬ (len "hsmith-jones" ≤ -9223372036854775808) := by
  decide

/-- C6: two successive invocations of the function registered as
`generate_username` return the same result. An invocation leaves the captured
variables as they were, and its result is that of `generateUsername` on the
randomizer built from the seed inside the call, so nothing of the first
invocation reaches the second. -/
theorem generateUsername_invocations_agree (h : Helpers R) (c : UsernameClosure) :
    (UsernameClosure.invoke h c).2 = c ∧
    (UsernameClosure.invoke h (UsernameClosure.invoke h c).2).1 =
      (UsernameClosure.invoke h c).1 ∧
    (UsernameClosure.invoke h c).1 =
      (match (generateUsername h (h.New c.seed) c.maxLength).1 with
       | (_, some err) =>
         (none, some (GoError.wrap ("unable to run generate_username: " ++ err.Error) err))
       | (res, none) => (some res, none)) := by
  have hc : (UsernameClosure.invoke h c).2 = c := by
    unfold UsernameClosure.invoke
    simp only
    split <;> rfl
  refine ⟨hc, by rw [hc], ?_⟩
  unfold UsernameClosure.invoke
  simp only
  split
  · rename_i hg
    rw [hg]
  · rename_i hg
    rw [hg]

/-! ## Form of the generated email, continued -/

/-- C7: every successful result of `generateRandomEmail` is `loc ++ "@" ++ domain`
where `domain` is what the domain sampler returned for the ceiling
`maxLength - 2` and the given exclusions (called on the randomizer as the choice
of the email type left it) and `loc` is not empty; `loc` is the trimmed,
hyphen-stripped uuid or the stripped, lower-cased names. The result holds
exactly one `@` when neither `loc` nor `domain` holds one. -/
theorem generateRandomEmail_form (h : Helpers R) (r r1 : R) (u : String) (M : Int)
    (t : generateEmailType) (ex : List String) (out : String)
    (hrun : generateRandomEmail h r u M t ex = some ((out, none), r1)) :
    ∃ (loc domain : String) (r2 : R),
      getRandomEmailDomain h (if t = anyEmailType then (getRandomEmailType h r).2 else r)
        (sub64 M 2) ex = ((domain, none), r2) ∧
      out = loc ++ "@" ++ domain ∧ loc ≠ "" ∧
      (loc = h.TrimStringIfExceeds (removeHyphens u) (sub64 (sub64 M (len domain)) 1) ∨
        ∃ fn ln, loc = h.ToLower (h.WithoutCharacters fn h.SpecialChars) ++
          h.ToLower (h.WithoutCharacters ln h.SpecialChars)) ∧
      (countAt loc = 0 → countAt domain = 0 → countAt out = 1) := by
  unfold generateRandomEmail at hrun
  have hr : (if t = anyEmailType then getRandomEmailType h r else (t, r)).2 =
      (if t = anyEmailType then (getRandomEmailType h r).2 else r) := by
    split <;> rfl
  rw [← hr]
  generalize (if t = anyEmailType then getRandomEmailType h r else (t, r)) = tr at hrun ⊢
  simp only at hrun
  split at hrun
  · obtain ⟨loc, d, r2, hd, ho, hne, hloc⟩ := generateUuidEmail_form hrun
    exact ⟨loc, d, r2, hd, ho, hne, Or.inl hloc, fun h1 h2 => ho ▸ countAt_email loc d h1 h2⟩
  · obtain ⟨loc, d, r2, hd, ho, hne, hloc⟩ := generateFullnameEmail_form hrun
    exact ⟨loc, d, r2, hd, ho, hne, Or.inr hloc, fun h1 h2 => ho ▸ countAt_email loc d h1 h2⟩

/-- C7, at a concrete input: `maxLength = 10`, email type `uuidv4`, seed 42. -/
theorem generateRandomEmail_form_witness :
    generateRandomEmail Ref.helpers (Ref.New 42) "123e4567-e89b-42d3-a456-426614174000" 10
        uuidV4EmailType [] = some (("123e4@x.io", none), 3224) ∧
    ∃ (loc domain : String) (r2 : Nat),
      getRandomEmailDomain Ref.helpers
        (if uuidV4EmailType = anyEmailType then (getRandomEmailType Ref.helpers (Ref.New 42)).2
          else Ref.New 42) (sub64 10 2) [] = ((domain, none), r2) ∧
      "123e4@x.io" = loc ++ "@" ++ domain ∧ loc ≠ "" ∧
      (loc = Ref.helpers.TrimStringIfExceeds
          (removeHyphens "123e4567-e89b-42d3-a456-426614174000")
          (sub64 (sub64 10 (len domain)) 1) ∨
        ∃ fn ln, loc = Ref.helpers.ToLower
            (Ref.helpers.WithoutCharacters fn Ref.helpers.SpecialChars) ++
          Ref.helpers.ToLower (Ref.helpers.WithoutCharacters ln Ref.helpers.SpecialChars)) ∧
      (countAt loc = 0 → countAt domain = 0 → countAt "123e4@x.io" = 1) :=
  ⟨by decide,
   generateRandomEmail_form Ref.helpers (Ref.New 42) 3224
    "123e4567-e89b-42d3-a456-426614174000" 10 uuidV4EmailType [] "123e4@x.io" (by decide)⟩

/-! ## Minimum length -/

theorem generateNameForEmail_of_assembled (h : Helpers R) {r r1 : R} {m B : Int} {n : String}
    (ha : assembleNameForEmail h r (some m) B = some ((n, none), r1)) :
    generateNameForEmail h r (some m) B =
      if len n < m then
        some ((n ++ (h.GetRandomCharacterString r1 (sub64 m (len n))).1, none),
          (h.GetRandomCharacterString r1 (sub64 m (len n))).2)
      else some ((n, none), r1) := by
  unfold generateNameForEmail
  rw [ha]

theorem generateNameForEmail_error (h : Helpers R) {r r1 : R} {mn : Option Int} {B : Int}
    {v : String} {e : GoError}
    (hrun : generateNameForEmail h r mn B = some ((v, some e), r1)) :
    assembleNameForEmail h r mn B = some ((v, some e), r1) := by
  unfold generateNameForEmail at hrun
  split at hrun
  · simp at hrun
  · rename_i ha
    rw [ha, ← hrun]
  · rename_i ha
    split at hrun
    · split at hrun <;> simp at hrun
    · simp at hrun

theorem generateNameForEmail_ok_inv (h : Helpers R) {r r2 : R} {mn : Option Int} {B : Int}
    {v : String} (hrun : generateNameForEmail h r mn B = some ((v, none), r2)) :
    ∃ n r1, assembleNameForEmail h r mn B = some ((n, none), r1) := by
  unfold generateNameForEmail at hrun
  split at hrun
  · simp at hrun
  · simp at hrun
  · rename_i n r1 ha
    exact ⟨n, r1, ha⟩

theorem filler_delta {m k : Int} (hm : m ≤ maxInt64) (hk0 : 0 ≤ k) (hk : k < m) :
    sub64 m k = m - k ∧ 0 ≤ m - k := by
  unfold maxInt64 at hm
  exact ⟨sub64_eq ⟨by unfold minInt64; omega, by unfold maxInt64; omega⟩, by omega⟩

theorem generateNameForEmail_ge_min (h : Helpers R)
    (hc : ∀ r n, 0 ≤ n → len (h.GetRandomCharacterString r n).1 = n) {r r2 : R} {m B : Int}
    {v : String} (hm : m ≤ maxInt64)
    (hrun : generateNameForEmail h r (some m) B = some ((v, none), r2)) : m ≤ len v := by
  obtain ⟨n, r1, ha⟩ := generateNameForEmail_ok_inv h hrun
  rw [generateNameForEmail_of_assembled h ha] at hrun
  split at hrun
  · rename_i hlt
    obtain ⟨hd, hd0⟩ := filler_delta hm (len_nonneg n) hlt
    simp only [Option.some.injEq, Prod.mk.injEq, and_true] at hrun
    rw [← hrun.1, len_append, hd, hc _ _ hd0]
    omega
  · rename_i hge
    simp only [Option.some.injEq, Prod.mk.injEq, and_true] at hrun
    rw [← hrun.1]
    omega

/-- C8: with a minimum length `m`, when the assembled name `n` is shorter than
`m` the result is `n` followed by a filler of exactly `m - len n` bytes, so it
has length `m` and starts with `n`; when `n` has at least `m` bytes the result
is `n` and the randomizer is the one the assembly left (no filler is drawn);
without a minimum length the result is the assembled name. Every successful
result has at least `m` bytes. -/
theorem generateNameForEmail_minLength (h : Helpers R)
    (hc : ∀ r n, 0 ≤ n → len (h.GetRandomCharacterString r n).1 = n) (r r1 : R) (m B : Int)
    (n : String) (hm : m ≤ maxInt64)
    (ha : assembleNameForEmail h r (some m) B = some ((n, none), r1)) :
    (len n < m →
      generateNameForEmail h r (some m) B =
          some ((n ++ (h.GetRandomCharacterString r1 (m - len n)).1, none),
            (h.GetRandomCharacterString r1 (m - len n)).2) ∧
        len (h.GetRandomCharacterString r1 (m - len n)).1 = m - len n ∧
        len (n ++ (h.GetRandomCharacterString r1 (m - len n)).1) = m) ∧
    (m ≤ len n → generateNameForEmail h r (some m) B = some ((n, none), r1)) ∧
    generateNameForEmail h r none B = assembleNameForEmail h r none B ∧
    (∀ v r2, generateNameForEmail h r (some m) B = some ((v, none), r2) → m ≤ len v) := by
  refine ⟨?_, ?_, generateNameForEmail_nil h r B, ?_⟩
  · intro hlt
    obtain ⟨hd, hd0⟩ := filler_delta hm (len_nonneg n) hlt
    rw [generateNameForEmail_of_assembled h ha, if_pos hlt, hd]
    refine ⟨rfl, hc _ _ hd0, ?_⟩
    rw [len_append, hc _ _ hd0]
    omega
  · intro hge
    rw [generateNameForEmail_of_assembled h ha, if_neg (by omega)]
  · intro v r2 hrun
    exact generateNameForEmail_ge_min h hc hm hrun

/-- C8, at a concrete input: minimum length 10, budget 5; the assembled name
`allee` is padded to `alleetitzu`. -/
theorem generateNameForEmail_minLength_witness :
    assembleNameForEmail Ref.helpers (Ref.New 7) (some 10) 5 = some (("allee", none), 44999) ∧
    generateNameForEmail Ref.helpers (Ref.New 7) (some 10) 5 =
      some (("alleetitzu", none), 40318) ∧
    ((len "allee" < 10 →
      generateNameForEmail Ref.helpers (Ref.New 7) (some 10) 5 =
          some (("allee" ++ (Ref.helpers.GetRandomCharacterString 44999 (10 - len "allee")).1,
            none), (Ref.helpers.GetRandomCharacterString 44999 (10 - len "allee")).2) ∧
        len (Ref.helpers.GetRandomCharacterString 44999 (10 - len "allee")).1 =
          10 - len "allee" ∧
        len ("allee" ++ (Ref.helpers.GetRandomCharacterString 44999 (10 - len "allee")).1) =
          10) ∧
    (10 ≤ len "allee" →
      generateNameForEmail Ref.helpers (Ref.New 7) (some 10) 5 = some (("allee", none), 44999)) ∧
    generateNameForEmail Ref.helpers (Ref.New 7) none 5 =
      assembleNameForEmail Ref.helpers (Ref.New 7) none 5 ∧
    (∀ v r2, generateNameForEmail Ref.helpers (Ref.New 7) (some 10) 5 = some ((v, none), r2) →
      10 ≤ len v)) :=
  ⟨by decide, by decide,
   generateNameForEmail_minLength Ref.helpers Ref.helpers_lawful.chars_len (Ref.New 7) 44999
     10 5 "allee" (by decide) (by decide)⟩

/-! ## The fallback chain -/

theorem assemble_eq_fallbackChain (h : Helpers R) (r : R) (mn : Option Int) (B : Int) :
    assembleNameForEmail h r mn B = fallbackChain h r mn B := by
  unfold assembleNameForEmail fallbackChain fallbackLastName
  rcases hp : h.FindClosestPair h.FirstNameIndices h.LastNameIndices B with ⟨i, j⟩
  simp only [hp]
  by_cases hi : i = -1
  · by_cases hj : j = -1
    · simp only [hi, hj, and_self, if_true, ne_eq, not_true_eq_false, if_false]
      rcases hg : h.generateRandomLastName r mn B with ⟨⟨ln, e⟩, r1⟩
      cases e <;> rfl
    · simp only [hi, hj, and_false, if_false, ne_eq, not_true_eq_false, not_false_eq_true,
        if_true]
      cases hb : index64 h.LastNameIndices j with
      | none => rfl
      | some b =>
        simp only
        rcases hg : h.generateRandomLastName r none b with ⟨⟨ln, e⟩, r1⟩
        cases e <;> rfl
  · simp only [hi, false_and, if_false, ne_eq, not_false_eq_true, if_true]
    cases ha : index64 h.FirstNameIndices i with
    | none => rfl
    | some a =>
      simp only
      rcases hg : h.generateRandomFirstName r none a with ⟨⟨fn, e⟩, r1⟩
      cases e with
      | some e => rfl
      | none =>
        simp only
        by_cases hj : j = -1
        · simp only [hj, not_true_eq_false, if_false, if_true]
        · simp only [hj, not_false_eq_true, if_true, if_false]
          cases hb : index64 h.LastNameIndices j with
          | none => rfl
          | some b =>
            simp only
            rcases hg2 : h.generateRandomLastName r1 none b with ⟨⟨ln, e2⟩, r2⟩
            cases e2 <;> rfl

theorem joinName_eq (h : Helpers R) (f l : String) :
    joinName h f l =
      if h.ToLower (h.WithoutCharacters f h.SpecialChars) = "" ∧
          h.ToLower (h.WithoutCharacters l h.SpecialChars) = "" then
        ("", some (GoError.new "unable to generate random first and/or last name for email"))
      else
        (h.ToLower (h.WithoutCharacters f h.SpecialChars) ++
          h.ToLower (h.WithoutCharacters l h.SpecialChars), none) := by
  unfold joinName
  simp only [joinPieces_nonempty]

theorem joinName_error {h : Helpers R} {f l v : String} {e : GoError}
    (hj : joinName h f l = (v, some e)) :
    v = "" ∧ e = GoError.new "unable to generate random first and/or last name for email" ∧
      h.ToLower (h.WithoutCharacters f h.SpecialChars) = "" ∧
      h.ToLower (h.WithoutCharacters l h.SpecialChars) = "" := by
  rw [joinName_eq] at hj
  split at hj
  · rename_i hempty
    simp only [Prod.mk.injEq, Option.some.injEq] at hj
    exact ⟨hj.1.symm, hj.2.symm, hempty.1, hempty.2⟩
  · simp at hj

theorem fallbackChain_error_origin (h : Helpers R) (r : R) (mn : Option Int) (B : Int)
    (v : String) (e : GoError) (r1 : R)
    (hrun : fallbackChain h r mn B = some ((v, some e), r1)) :
    v = "" ∧
      ((e = GoError.new "unable to generate random first and/or last name for email" ∧
        ∃ f l, h.ToLower (h.WithoutCharacters f h.SpecialChars) = "" ∧
          h.ToLower (h.WithoutCharacters l h.SpecialChars) = "") ∨
       (∃ r0 a w, index64 h.FirstNameIndices
            (h.FindClosestPair h.FirstNameIndices h.LastNameIndices B).1 = some a ∧
          h.generateRandomFirstName r0 none a = ((w, some e), r1)) ∨
       (∃ r0 b w, index64 h.LastNameIndices
            (h.FindClosestPair h.FirstNameIndices h.LastNameIndices B).2 = some b ∧
          h.generateRandomLastName r0 none b = ((w, some e), r1))) := by
  unfold fallbackChain at hrun
  simp only at hrun
  split at hrun
  · split at hrun
    · split at hrun
      · simp only [Option.some.injEq, Prod.mk.injEq] at hrun
        obtain ⟨h1, h2, h3, h4⟩ := joinName_error hrun.1
        exact ⟨h1, Or.inl ⟨h2, _, _, h3, h4⟩⟩
      · simp only [Option.some.injEq, Prod.mk.injEq] at hrun
        obtain ⟨h1, h2, h3, h4⟩ := joinName_error hrun.1
        exact ⟨h1, Or.inl ⟨h2, _, _, h3, h4⟩⟩
    · split at hrun
      · simp at hrun
      · rename_i b hb
        split at hrun
        · rename_i w e2 r2 hg
          simp only [Option.some.injEq, Prod.mk.injEq] at hrun
          obtain ⟨⟨hv, he⟩, hr⟩ := hrun
          subst he hr
          exact ⟨hv.symm, Or.inr (Or.inr ⟨r, b, w, hb, hg⟩)⟩
        · simp only [Option.some.injEq, Prod.mk.injEq] at hrun
          obtain ⟨h1, h2, h3, h4⟩ := joinName_error hrun.1
          exact ⟨h1, Or.inl ⟨h2, _, _, h3, h4⟩⟩
  · split at hrun
    · simp at hrun
    · rename_i a ha
      split at hrun
      · rename_i w e2 r2 hg
        simp only [Option.some.injEq, Prod.mk.injEq] at hrun
        obtain ⟨⟨hv, he⟩, hr⟩ := hrun
        subst he hr
        exact ⟨hv.symm, Or.inr (Or.inl ⟨r, a, w, ha, hg⟩)⟩
      · rename_i fn ra hg
        split at hrun
        · simp only [Option.some.injEq, Prod.mk.injEq] at hrun
          obtain ⟨h1, h2, h3, h4⟩ := joinName_error hrun.1
          exact ⟨h1, Or.inl ⟨h2, _, _, h3, h4⟩⟩
        · split at hrun
          · simp at hrun
          · rename_i b hb
            split at hrun
            · rename_i w e2 r2 hg2
              simp only [Option.some.injEq, Prod.mk.injEq] at hrun
              obtain ⟨⟨hv, he⟩, hr⟩ := hrun
              subst he hr
              exact ⟨hv.symm, Or.inr (Or.inr ⟨ra, b, w, hb, hg2⟩)⟩
            · simp only [Option.some.injEq, Prod.mk.injEq] at hrun
              obtain ⟨h1, h2, h3, h4⟩ := joinName_error hrun.1
              exact ⟨h1, Or.inl ⟨h2, _, _, h3, h4⟩⟩

theorem generateNameForEmail_eq_padded (h : Helpers R) (r : R) (m B : Int) :
    generateNameForEmail h r (some m) B =
      (match fallbackChain h r (some m) B with
       | none => none
       | some ((v, some err), r1) => some ((v, some err), r1)
       | some ((n, none), r1) =>
         if len n < m then
           some ((n ++ (h.GetRandomCharacterString r1 (sub64 m (len n))).1, none),
             (h.GetRandomCharacterString r1 (sub64 m (len n))).2)
         else some ((n, none), r1)) := by
  unfold generateNameForEmail
  rw [assemble_eq_fallbackChain]

/-- Supporting fact for C10, for any helpers: called without a minimum length,
`generateNameForEmail` is the table `fallbackChain`: with both indices a first
and then a last name, each under the indexed length; with one index that part
alone, the last name or the first name; with no index a last name under the
whole budget and, when that fails, a random character string of length
`maxLength`, the error of the last-name generator being dropped. The parts are
stripped and lower-cased and joined, an empty join being an error. An error
comes with the empty string and is either that one or the error of a name
generator called under an indexed length. -/
theorem generateNameForEmail_fallback_chain (h : Helpers R) (r : R) (B : Int) :
    generateNameForEmail h r none B = fallbackChain h r none B ∧
    (∀ f l, joinName h f l =
      if h.ToLower (h.WithoutCharacters f h.SpecialChars) = "" ∧
          h.ToLower (h.WithoutCharacters l h.SpecialChars) = "" then
        ("", some (GoError.new "unable to generate random first and/or last name for email"))
      else
        (h.ToLower (h.WithoutCharacters f h.SpecialChars) ++
          h.ToLower (h.WithoutCharacters l h.SpecialChars), none)) ∧
    (∀ v e r1, generateNameForEmail h r none B = some ((v, some e), r1) →
      v = "" ∧
      ((e = GoError.new "unable to generate random first and/or last name for email" ∧
        ∃ f l, h.ToLower (h.WithoutCharacters f h.SpecialChars) = "" ∧
          h.ToLower (h.WithoutCharacters l h.SpecialChars) = "") ∨
       (∃ r0 a w, index64 h.FirstNameIndices
            (h.FindClosestPair h.FirstNameIndices h.LastNameIndices B).1 = some a ∧
          h.generateRandomFirstName r0 none a = ((w, some e), r1)) ∨
       (∃ r0 b w, index64 h.LastNameIndices
            (h.FindClosestPair h.FirstNameIndices h.LastNameIndices B).2 = some b ∧
          h.generateRandomLastName r0 none b = ((w, some e), r1)))) := by
  refine ⟨(generateNameForEmail_nil h r B).trans (assemble_eq_fallbackChain h r none B),
    joinName_eq h, ?_⟩
  intro v e r1 hrun
  rw [generateNameForEmail_nil, assemble_eq_fallbackChain] at hrun
  exact fallbackChain_error_origin h r none B v e r1 hrun

/-- C10: the failing case, for any helpers. When the solver returns a first-name
index `i` and `-1` for the last name (no full name fits), `generateNameForEmail`
generates a first name under the indexed length and returns it alone, stripped
and lower-cased: the last-name generator is not called (the randomizer is the
one the first-name draw left) and no random string is drawn. The doc comment of
the function promises a last name in that case. -/
theorem generateNameForEmail_first_name_alone (h : Helpers R) (r r1 : R) (B i a : Int)
    (fn : String)
    (hp : h.FindClosestPair h.FirstNameIndices h.LastNameIndices B = (i, -1)) (hi : i ≠ -1)
    (ha : index64 h.FirstNameIndices i = some a)
    (hf : h.generateRandomFirstName r none a = ((fn, none), r1)) :
    generateNameForEmail h r none B = some (joinName h fn "", r1) := by
  rw [generateNameForEmail_nil, assemble_eq_fallbackChain]
  unfold fallbackChain
  simp only [hp, hi, if_false, ha, hf, if_true]

/-- C10, at the failing input: with the budget 2 the solver returns the indices
`(0, -1)`, the first name `Al` is drawn and the result is `al`; the randomizer
handed back is the one the first-name draw left, and no last name of the corpus
gives `al`. -/
theorem generateNameForEmail_first_name_alone_witness :
    Ref.helpers.FindClosestPair Ref.helpers.FirstNameIndices Ref.helpers.LastNameIndices 2 =
      (0, -1) ∧
    index64 Ref.helpers.FirstNameIndices 0 = some 2 ∧
    Ref.helpers.generateRandomFirstName (Ref.New 7) none 2 = (("Al", none), 599) ∧
    joinName Ref.helpers "Al" "" = ("al", none) ∧
    (∀ ln ∈ Ref.LastNames,
      Ref.helpers.ToLower (Ref.helpers.WithoutCharacters ln Ref.helpers.SpecialChars) ≠ "al") ∧
    generateNameForEmail Ref.helpers (Ref.New 7) none 2 =
      some (joinName Ref.helpers "Al" "", 599) :=
  ⟨by decide, by decide, by decide, by decide, by decide,
   generateNameForEmail_first_name_alone Ref.helpers (Ref.New 7) 599 2 0 2 "Al"
     (by decide) (by decide) (by decide) (by decide)⟩

/-! ## A minimum length above the maximum length -/

/-- C9, refuted as stated: with minimum length 10 and maximum length 1 the call
is not rejected; it succeeds and returns a name of 10 bytes. -/
theorem generateNameForEmail_accepts_min_above_max :
    (1 : Int) < 10 ∧
    generateNameForEmail Ref.helpers (Ref.New 7) (some 10) 1 =
      some (("hbtitzussg", none), 39607) ∧
    ¬ (len "hbtitzussg" ≤ 1) := by
  decide

/-- C9, amended: `generateNameForEmail` does not compare the two bounds and
rejects nothing on that ground. For a minimum length `m` above the maximum
length `B` the call is the name assembly of `fallbackChain` followed by the
padding, as for any other bounds; every successful result has at least `m`
bytes, hence more than `B`; and every error comes with the empty string and is
either the empty-name error, both stripped parts being empty, or the error of a
name generator called under a length the solver indexed. -/
theorem generateNameForEmail_min_above_max (h : Helpers R)
    (hc : ∀ r n, 0 ≤ n → len (h.GetRandomCharacterString r n).1 = n) (r : R) (m B : Int)
    (hm : m ≤ maxInt64) (hgt : B < m) :
    generateNameForEmail h r (some m) B =
      (match fallbackChain h r (some m) B with
       | none => none
       | some ((v, some err), r1) => some ((v, some err), r1)
       | some ((n, none), r1) =>
         if len n < m then
           some ((n ++ (h.GetRandomCharacterString r1 (sub64 m (len n))).1, none),
             (h.GetRandomCharacterString r1 (sub64 m (len n))).2)
         else some ((n, none), r1)) ∧
    (∀ v r2, generateNameForEmail h r (some m) B = some ((v, none), r2) →
      m ≤ len v ∧ B < len v) ∧
    (∀ v e r1, generateNameForEmail h r (some m) B = some ((v, some e), r1) →
      v = "" ∧
      ((e = GoError.new "unable to generate random first and/or last name for email" ∧
        ∃ f l, h.ToLower (h.WithoutCharacters f h.SpecialChars) = "" ∧
          h.ToLower (h.WithoutCharacters l h.SpecialChars) = "") ∨
       (∃ r0 a w, index64 h.FirstNameIndices
            (h.FindClosestPair h.FirstNameIndices h.LastNameIndices B).1 = some a ∧
          h.generateRandomFirstName r0 none a = ((w, some e), r1)) ∨
       (∃ r0 b w, index64 h.LastNameIndices
            (h.FindClosestPair h.FirstNameIndices h.LastNameIndices B).2 = some b ∧
          h.generateRandomLastName r0 none b = ((w, some e), r1)))) := by
  refine ⟨generateNameForEmail_eq_padded h r m B, ?_, ?_⟩
  · intro v r2 hrun
    have := generateNameForEmail_ge_min h hc hm hrun
    exact ⟨this, by omega⟩
  · intro v e r1 hrun
    have hA := generateNameForEmail_error h hrun
    rw [assemble_eq_fallbackChain] at hA
    exact fallbackChain_error_origin h r (some m) B v e r1 hA

/-- C9 amended, at a concrete input: minimum length 10, maximum length 1. -/
theorem generateNameForEmail_min_above_max_witness :
    (10 : Int) ≤ maxInt64 ∧ (1 : Int) < 10 ∧
    fallbackChain Ref.helpers (Ref.New 7) (some 10) 1 = some (("h", none), 599) ∧
    generateNameForEmail Ref.helpers (Ref.New 7) (some 10) 1 =
      some (("hbtitzussg", none), 39607) ∧
    (generateNameForEmail Ref.helpers (Ref.New 7) (some 10) 1 =
      (match fallbackChain Ref.helpers (Ref.New 7) (some 10) 1 with
       | none => none
       | some ((v, some err), r1) => some ((v, some err), r1)
       | some ((n, none), r1) =>
         if len n < 10 then
           some ((n ++ (Ref.helpers.GetRandomCharacterString r1 (sub64 10 (len n))).1, none),
             (Ref.helpers.GetRandomCharacterString r1 (sub64 10 (len n))).2)
         else some ((n, none), r1)) ∧
    (∀ v r2, generateNameForEmail Ref.helpers (Ref.New 7) (some 10) 1 =
        some ((v, none), r2) → 10 ≤ len v ∧ 1 < len v) ∧
    (∀ v e r1, generateNameForEmail Ref.helpers (Ref.New 7) (some 10) 1 =
        some ((v, some e), r1) →
      v = "" ∧
      ((e = GoError.new "unable to generate random first and/or last name for email" ∧
        ∃ f l, Ref.helpers.ToLower (Ref.helpers.WithoutCharacters f Ref.helpers.SpecialChars) = "" ∧
          Ref.helpers.ToLower (Ref.helpers.WithoutCharacters l Ref.helpers.SpecialChars) = "") ∨
       (∃ r0 a w, index64 Ref.helpers.FirstNameIndices
            (Ref.helpers.FindClosestPair Ref.helpers.FirstNameIndices Ref.helpers.LastNameIndices 1).1 = some a ∧
          Ref.helpers.generateRandomFirstName r0 none a = ((w, some e), r1)) ∨
       (∃ r0 b w, index64 Ref.helpers.LastNameIndices
            (Ref.helpers.FindClosestPair Ref.helpers.FirstNameIndices Ref.helpers.LastNameIndices 1).2 = some b ∧
          Ref.helpers.generateRandomLastName r0 none b = ((w, some e), r1))))) :=
  ⟨by decide, by decide, by decide, by decide,
   generateNameForEmail_min_above_max Ref.helpers Ref.helpers_lawful.chars_len (Ref.New 7)
     10 1 (by decide) (by decide)⟩

/-! ## The closure registered as generate_email -/

/-- Supporting fact for C11, for any helpers: the randomizer a closure holds
after an invocation is the one `generateRandomEmail` handed back; the next
invocation starts from it. -/
theorem emailClosure_invoke_randomizer (h : Helpers R) (c : EmailClosure R) (u : String) :
    (EmailClosure.invoke h c u).map (fun x => x.2.randomizer) =
      (generateRandomEmail h c.randomizer u c.maxLength c.emailType c.excludedDomains).map
        (fun x => x.2) := by
  unfold EmailClosure.invoke
  split
  · rename_i hg
    rw [hg]
    rfl
  · rename_i hg
    rw [hg]
    rfl
  · rename_i hg
    rw [hg]
    rfl

/-- C11: evaluation at the failing input. The function is registered with
`max_length = 30`, `email_type = "fullname"` and `seed = 5` and invoked twice.
The randomizer is built once, at registration; the first invocation returns
`evasmith@aol.com` and leaves the randomizer advanced, and the second one,
starting from that state and not from the seed, returns `evanguyen@yahoo.com`. -/
theorem generateEmail_invocations_share_randomizer :
    registerGenerateEmail Ref.helpers 30 "fullname" (some 5) (0, none) =
      (some ⟨Ref.New 5, 30, fullNameEmailType, []⟩, none) ∧
    EmailClosure.invoke Ref.helpers ⟨Ref.New 5, 30, fullNameEmailType, []⟩
        "123e4567-e89b-42d3-a456-426614174000" =
      some ((some "evasmith@aol.com", none), ⟨40843, 30, fullNameEmailType, []⟩) ∧
    EmailClosure.invoke Ref.helpers ⟨40843, 30, fullNameEmailType, []⟩
        "123e4567-e89b-42d3-a456-426614174000" =
      some ((some "evanguyen@yahoo.com", none), ⟨8922, 30, fullNameEmailType, []⟩) ∧
    Ref.New 5 ≠ 40843 := by
  decide

/-! ## Case of the last name in a username -/

/-- C14: evaluation at the failing input. With `maxLength = 1000` the last name
drawn is `Smith-Jones`, in title case as the corpus stores it, and the username
returned is `hsmith-jones`: the part after the initial is the last name in
lower case, not in title case. -/
theorem generateUsername_lowercases_last_name :
    Ref.helpers.GetRandomCharacterString (Ref.New 7) 1 = ("h", 599) ∧
    Ref.helpers.generateRandomLastName 599 none (sub64 1000 1) = (("Smith-Jones", none), 44999) ∧
    generateUsername Ref.helpers (Ref.New 7) 1000 = (("hsmith-jones", none), 44999) ∧
    "hsmith-jones" ≠ "h" ++ "Smith-Jones" := by
  decide

/-! ## Failure of the domain sampler in the uuid generator -/

/-- C16: for `3 ≤ maxLength`, when the domain sampler fails with an error `e`,
`generateUuidEmail` returns the empty string and an error built anew from a
fixed text and `maxLength`: it does not wrap anything (`Unwrap` gives nothing)
and `e` occurs nowhere in it, so two different sampler errors give the same
result. -/
theorem generateUuidEmail_sampler_error (h : Helpers R) (r r1 : R) (u : String) (M : Int)
    (ex : List String) (v : String) (e : GoError) (hM : 3 ≤ M) (hhi : M ≤ maxInt64)
    (hs : getRandomEmailDomain h r (M - 2) ex = ((v, some e), r1)) :
    generateUuidEmail h r u M ex =
      some (("", some (GoError.new
        ("unable to generate random email domain given the max length when generating a uuid email: "
          ++ toString M))), r1) ∧
    (GoError.new
      ("unable to generate random email domain given the max length when generating a uuid email: "
        ++ toString M)).Unwrap = none := by
  have hlo : minInt64 + 2 ≤ M := by unfold minInt64; omega
  have hg : ¬ sub64 M 2 ≤ 0 := length_guard_passes M hM hhi
  refine ⟨?_, rfl⟩
  unfold generateUuidEmail
  simp only [hg, if_false]
  rw [sub64_two hlo hhi, hs]

/-- C16, at a concrete input: `maxLength = 30` and every domain of the corpus
excluded. The sampler reports the exhausted corpus; the error returned is the
max-length text. -/
theorem generateUuidEmail_sampler_error_witness :
    getRandomEmailDomain Ref.helpers (Ref.New 5) (30 - 2) Ref.EmailDomains =
      (("", some (GoError.new "corpus exhausted: no value fits the length and exclusions")), 5) ∧
    (generateUuidEmail Ref.helpers (Ref.New 5) "123e4567-e89b-42d3-a456-426614174000" 30
        Ref.EmailDomains =
      some (("", some (GoError.new
        ("unable to generate random email domain given the max length when generating a uuid email: "
          ++ toString (30 : Int)))), 5) ∧
    (GoError.new
      ("unable to generate random email domain given the max length when generating a uuid email: "
        ++ toString (30 : Int))).Unwrap = none) :=
  ⟨by decide,
   generateUuidEmail_sampler_error Ref.helpers (Ref.New 5) 5
     "123e4567-e89b-42d3-a456-426614174000" 30 Ref.EmailDomains ""
     (GoError.new "corpus exhausted: no value fits the length and exclusions")
     (by decide) (by decide) (by decide)⟩

/-! ## The email type of a request -/

/-- C17: `getEmailTypeOrDefault x` is `x` when `x` is `uuidv4` or `fullname`
and `uuidv4` for every other string, `any` and the empty string among them. It
is never `any`, so `generateRandomEmail` called with it draws no email type:
it is `generateUuidEmail` or `generateFullnameEmail` on the randomizer as
given. -/
theorem getEmailTypeOrDefault_spec (h : Helpers R) (x : String) :
    (x = uuidV4EmailType ∨ x = fullNameEmailType → getEmailTypeOrDefault x = x) ∧
    (x ≠ uuidV4EmailType → x ≠ fullNameEmailType →
      getEmailTypeOrDefault x = uuidV4EmailType) ∧
    getEmailTypeOrDefault anyEmailType = uuidV4EmailType ∧
    getEmailTypeOrDefault "" = uuidV4EmailType ∧
    getEmailTypeOrDefault x ≠ anyEmailType ∧
    (∀ (r : R) (u : String) (M : Int) (ex : List String),
      generateRandomEmail h r u M (getEmailTypeOrDefault x) ex =
        if getEmailTypeOrDefault x = uuidV4EmailType then generateUuidEmail h r u M ex
        else generateFullnameEmail h r M ex) := by
  have hcases : getEmailTypeOrDefault x = uuidV4EmailType ∨
      getEmailTypeOrDefault x = fullNameEmailType := by
    unfold getEmailTypeOrDefault isValidEmailType
    by_cases h1 : x = uuidV4EmailType
    · left; simp [h1]
    · by_cases h2 : x = fullNameEmailType
      · right; simp [h2]
      · left; simp [h1, h2]
  have hne : getEmailTypeOrDefault x ≠ anyEmailType := by
    rcases hcases with hc | hc <;> rw [hc] <;> decide
  refine ⟨?_, ?_, by decide, by decide, hne, ?_⟩
  · intro hx
    unfold getEmailTypeOrDefault isValidEmailType
    rcases hx with hx | hx <;> simp [hx]
  · intro h1 h2
    unfold getEmailTypeOrDefault isValidEmailType
    simp [h1, h2]
  · intro r u M ex
    unfold generateRandomEmail
    simp only [hne, if_false]

/-! ## The uuid email always fits -/

theorem hexDigit_ascii (c : Char) (hc : isHexDigit c = true) : c.toNat < 128 := by
  unfold isHexDigit at hc
  simp only [Bool.or_eq_true, Bool.and_eq_true, decide_eq_true_eq] at hc
  rcases hc with ⟨-, h2⟩ | ⟨-, h2⟩
  · have h3 : c.toNat ≤ 57 := h2
    omega
  · have h3 : c.toNat ≤ 102 := h2
    omega

theorem uuid_stripped {u : String} (hu : isUuidString u = true) :
    (removeHyphens u).data.length = 32 ∧ ∀ c ∈ (removeHyphens u).data, c.toNat < 128 := by
  unfold isUuidString at hu
  simp only [Bool.and_eq_true, beq_iff_eq, List.all_eq_true] at hu
  exact ⟨hu.1.2, fun c hc => hexDigit_ascii c (hu.2 c hc)⟩

theorem len_take_ascii (cs : List Char) (hcs : ∀ c ∈ cs, c.toNat < 128) (k : Nat)
    (hk : k ≤ cs.length) : len (String.mk (cs.take k)) = k := by
  show ((String.utf8Len (cs.take k) : Nat) : Int) = k
  rw [Ref.len_mk_of_ascii _ (fun c hc => hcs c (List.mem_of_mem_take hc)), List.length_take]
  congr 1
  omega

theorem ref_takeBytes_ascii : ∀ (cs : List Char), (∀ c ∈ cs, c.toNat < 128) → ∀ n : Nat,
    Ref.takeBytes n cs = cs.take n
  | [], _, n => by simp [Ref.takeBytes]
  | c :: cs, hcs, n => by
    unfold Ref.takeBytes
    rw [Ref.utf8Size_of_ascii c (hcs c (List.mem_cons_self _ _))]
    cases n with
    | zero => simp
    | succ k =>
      have ih := ref_takeBytes_ascii cs (fun x hx => hcs x (List.mem_cons_of_mem _ hx)) k
      simp [ih]

theorem ref_trimsToPrefix : TrimsToPrefix Ref.helpers := by
  intro s n hs hn
  have hs2 : List.all s.data (fun c => decide (c.toNat < 128)) = true := hs
  rw [List.all_eq_true] at hs2
  show (if len s > n then String.mk (Ref.takeBytes n.toNat s.data) else s) = _
  rw [ref_takeBytes_ascii s.data (fun c hc => by simpa using hs2 c hc)]

/-- C15: for `3 ≤ maxLength`, when the domain sampler returns a domain `d` with
`1 ≤ len d ≤ maxLength - 2`, `generateUuidEmail` succeeds: it returns
`u1 ++ "@" ++ d` where `u1` is the first `min 32 (maxLength - len d - 1)`
characters of the hyphen-stripped uuid, and the result has exactly
`min maxLength (33 + len d)` bytes. The uuid is in canonical form and
`TrimStringIfExceeds` cuts to a prefix. -/
theorem generateUuidEmail_succeeds (h : Helpers R) (htrim : TrimsToPrefix h) (r r1 : R)
    (u : String) (M : Int) (ex : List String) (d : String) (hu : isUuidString u = true)
    (hM : 3 ≤ M) (hhi : M ≤ maxInt64)
    (hs : getRandomEmailDomain h r (M - 2) ex = ((d, none), r1))
    (hd1 : 1 ≤ len d) (hd2 : len d ≤ M - 2) :
    generateUuidEmail h r u M ex =
      some ((String.mk ((removeHyphens u).data.take (min 32 (M - len d - 1)).toNat) ++ "@" ++ d,
        none), r1) ∧
    len (String.mk ((removeHyphens u).data.take (min 32 (M - len d - 1)).toNat) ++ "@" ++ d) =
      min M (33 + len d) := by
  have hlo : minInt64 + 2 ≤ M := by unfold minInt64; omega
  have hg : ¬ sub64 M 2 ≤ 0 := length_guard_passes M hM hhi
  obtain ⟨hlen, hascii⟩ := uuid_stripped hu
  have hA : isASCII (removeHyphens u) = true := by
    show List.all (removeHyphens u).data (fun c => decide (c.toNat < 128)) = true
    rw [List.all_eq_true]
    intro c hc
    simpa using hascii c hc
  have hl32 : len (removeHyphens u) = 32 := by
    show ((String.utf8Len (removeHyphens u).data : Nat) : Int) = 32
    rw [Ref.len_mk_of_ascii _ hascii, hlen]
    rfl
  have hB : sub64 (sub64 M (len d)) 1 = M - len d - 1 := budget_eq hhi (by omega) hd2
  have hB1 : 1 ≤ M - len d - 1 := by omega
  have ht : h.TrimStringIfExceeds (removeHyphens u) (M - len d - 1) =
      String.mk ((removeHyphens u).data.take (min 32 (M - len d - 1)).toNat) := by
    rw [htrim _ _ hA (by omega), hl32]
    split
    · rename_i hlt
      rw [min_eq_right (by omega)]
    · rename_i hge
      rw [min_eq_left (by omega)]
      have h32 : (32 : Int).toNat = 32 := rfl
      rw [h32, List.take_of_length_le (by omega)]
  have hk : (min 32 (M - len d - 1)).toNat ≤ (removeHyphens u).data.length := by
    rw [hlen]
    omega
  have hlt := len_take_ascii (removeHyphens u).data hascii _ hk
  have hne : String.mk ((removeHyphens u).data.take (min 32 (M - len d - 1)).toNat) ≠ "" := by
    intro h0
    rw [h0, len_empty] at hlt
    omega
  constructor
  · unfold generateUuidEmail
    simp only [hg, if_false]
    rw [sub64_two hlo hhi, hs]
    simp only [hB, ht, hne, if_false]
  · rw [len_append, len_append, len_at, hlt]
    omega

/-- C15, at a concrete input: `maxLength = 30`, the domain drawn is `aol.com`
and the local part is the first 22 characters of the stripped uuid. -/
theorem generateUuidEmail_succeeds_witness :
    isUuidString "123e4567-e89b-42d3-a456-426614174000" = true ∧
    getRandomEmailDomain Ref.helpers (Ref.New 5) (30 - 2) [] = (("aol.com", none), 449) ∧
    (generateUuidEmail Ref.helpers (Ref.New 5) "123e4567-e89b-42d3-a456-426614174000" 30 [] =
      some ((String.mk ((removeHyphens "123e4567-e89b-42d3-a456-426614174000").data.take
        (min 32 (30 - len "aol.com" - 1)).toNat) ++ "@" ++ "aol.com", none), 449) ∧
    len (String.mk ((removeHyphens "123e4567-e89b-42d3-a456-426614174000").data.take
        (min 32 (30 - len "aol.com" - 1)).toNat) ++ "@" ++ "aol.com") =
      min 30 (33 + len "aol.com")) :=
  ⟨by decide, by decide,
   generateUuidEmail_succeeds Ref.helpers ref_trimsToPrefix (Ref.New 5) 449
     "123e4567-e89b-42d3-a456-426614174000" 30 [] "aol.com" (by decide) (by decide) (by decide)
     (by decide) (by decide) (by decide)⟩

/-! ## The catalog of system transformers -/

namespace TransformersService

theorem declared_length : systemTransformers.length = 41 := by decide

theorem declared_names_nodup : (systemTransformers.map (fun t => t.Name)).Nodup := by decide

theorem declared_sources_nodup : (systemTransformers.map (fun t => t.Source)).Nodup := by
  decide

theorem compareChars_swap : ∀ a b : List Char, compareChars b a = - compareChars a b
  | [], [] => rfl
  | [], _ :: _ => rfl
  | _ :: _, [] => rfl
  | x :: xs, y :: ys => by
    unfold compareChars
    have ih := compareChars_swap xs ys
    by_cases h1 : x.toNat < y.toNat
    · have h2 : ¬ y.toNat < x.toNat := by omega
      simp [h1, h2]
    · by_cases h2 : y.toNat < x.toNat
      · simp [h1, h2]
      · simp [h1, h2, ih]

theorem compareChars_eq_zero : ∀ a b : List Char, compareChars a b = 0 → a = b
  | [], [], _ => rfl
  | [], _ :: _, h0 => by simp [compareChars] at h0
  | _ :: _, [], h0 => by simp [compareChars] at h0
  | x :: xs, y :: ys, h0 => by
    unfold compareChars at h0
    by_cases h1 : x.toNat < y.toNat
    · simp [h1] at h0
    · by_cases h2 : y.toNat < x.toNat
      · simp [h1, h2] at h0
      · simp only [h1, h2, if_false] at h0
        have hn : x.toNat = y.toNat := by omega
        have hxy : x = y := by
          rw [← Char.ofNat_toNat x, ← Char.ofNat_toNat y, hn]
        rw [hxy, compareChars_eq_zero xs ys h0]

theorem compareByName_lt_of_sorted {a b : SystemTransformer}
    (h1 : ¬ compareByName b a < 0) (h2 : a.Name ≠ b.Name) : compareByName a b < 0 := by
  unfold compareByName cmpCompare at h1 ⊢
  have hs := compareChars_swap a.Name.data b.Name.data
  have hz : compareChars a.Name.data b.Name.data ≠ 0 := by
    intro h0
    have hd := compareChars_eq_zero _ _ h0
    apply h2
    cases hA : a.Name
    cases hB : b.Name
    rw [hA, hB] at hd
    simp only at hd
    rw [hd]
  omega

theorem sorted_names_strict {l : List SystemTransformer}
    (hperm : l.Perm systemTransformers)
    (hsorted : l.Pairwise (fun a b => ¬ compareByName b a < 0)) :
    l.Pairwise (fun a b => compareByName a b < 0) := by
  have hnd : (l.map (fun t => t.Name)).Nodup :=
    (hperm.map (fun t => t.Name)).nodup_iff.2 declared_names_nodup
  have hne : l.Pairwise (fun a b => a.Name ≠ b.Name) := List.pairwise_map.1 hnd
  refine (hsorted.and hne).imp ?_
  intro a b hab
  exact compareByName_lt_of_sorted hab.1 hab.2

set_option maxRecDepth 100000 in
theorem ref_sort_perm :
    (Ref.SortFunc systemTransformers compareByName).Perm systemTransformers := by
  decide

set_option maxRecDepth 100000 in
theorem ref_sort_sorted :
    (Ref.SortFunc systemTransformers compareByName).Pairwise
      (fun a b => ¬ compareByName b a < 0) := by
  decide

/-- C12: after `init`, whatever sort `slices.SortFunc` performs (as long as it
returns a permutation of the slice in ascending order of the comparison
function), the list `GetSystemTransformers` returns is a permutation of the 41
declared transformers in which each entry has a name strictly below the name of
the next one under byte-wise comparison; the names are pairwise distinct and the
call returns no error. -/
theorem GetSystemTransformers_sorted
    (SortFunc : List SystemTransformer → (SystemTransformer → SystemTransformer → Int) →
      List SystemTransformer)
    (hperm : (SortFunc systemTransformers compareByName).Perm systemTransformers)
    (hsorted : (SortFunc systemTransformers compareByName).Pairwise
      (fun a b => ¬ compareByName b a < 0)) :
    GetSystemTransformers (init SortFunc) = (some (init SortFunc).systemTransformers, none) ∧
    (init SortFunc).systemTransformers.Perm systemTransformers ∧
    (init SortFunc).systemTransformers.length = 41 ∧
    (init SortFunc).systemTransformers.Chain' (fun a b => cmpCompare a.Name b.Name < 0) ∧
    ((init SortFunc).systemTransformers.map (fun t => t.Name)).Nodup := by
  refine ⟨rfl, hperm, ?_, ?_, ?_⟩
  · exact hperm.length_eq.trans declared_length
  · exact (sorted_names_strict hperm hsorted).chain'
  · exact (hperm.map (fun t => t.Name)).nodup_iff.2 declared_names_nodup

/-- C12, at a concrete input: the sort is an insertion sort. -/
theorem GetSystemTransformers_sorted_witness :
    (Ref.SortFunc systemTransformers compareByName).Perm systemTransformers ∧
    (Ref.SortFunc systemTransformers compareByName).Pairwise
      (fun a b => ¬ compareByName b a < 0) ∧
    (GetSystemTransformers (init Ref.SortFunc) =
      (some (init Ref.SortFunc).systemTransformers, none) ∧
    (init Ref.SortFunc).systemTransformers.Perm systemTransformers ∧
    (init Ref.SortFunc).systemTransformers.length = 41 ∧
    (init Ref.SortFunc).systemTransformers.Chain' (fun a b => cmpCompare a.Name b.Name < 0) ∧
    ((init Ref.SortFunc).systemTransformers.map (fun t => t.Name)).Nodup) :=
  ⟨ref_sort_perm, ref_sort_sorted,
   GetSystemTransformers_sorted Ref.SortFunc ref_sort_perm ref_sort_sorted⟩

theorem foldl_mapSet_miss : ∀ (l : List SystemTransformer) (m : SourceMap)
    (s : TransformerSource), (∀ t ∈ l, t.Source ≠ s) →
    l.foldl (fun m transformer => mapSet m transformer.Source transformer) m s = m s
  | [], _, _, _ => rfl
  | x :: xs, m, s, hne => by
    rw [List.foldl_cons, foldl_mapSet_miss xs _ s (fun t ht => hne t (List.mem_cons_of_mem _ ht))]
    unfold mapSet
    have hx : s ≠ x.Source := fun hc => hne x (List.mem_cons_self _ _) hc.symm
    simp [hx]

theorem foldl_mapSet_hit : ∀ (l : List SystemTransformer) (m : SourceMap)
    (t : SystemTransformer), t ∈ l → (l.map (fun t => t.Source)).Nodup →
    l.foldl (fun m transformer => mapSet m transformer.Source transformer) m t.Source = some t
  | [], _, _, ht, _ => by simp at ht
  | x :: xs, m, t, ht, hnd => by
    rw [List.map_cons, List.nodup_cons] at hnd
    rw [List.foldl_cons]
    rcases List.mem_cons.1 ht with hx | hx
    · subst hx
      rw [foldl_mapSet_miss xs _ t.Source (fun t2 ht2 hc =>
        hnd.1 (List.mem_map.2 ⟨t2, ht2, hc⟩))]
      simp [mapSet]
    · exact foldl_mapSet_hit xs _ t hx hnd.2

theorem lookup_cases (g : Globals) (s : TransformerSource) :
    (g.systemTransformerSourceMap s = none ∧
      GetSystemTransformerBySource g s =
        (none, some (ServiceError.notFound
          "unable to find system transformer with provided source"))) ∨
    (∃ t, g.systemTransformerSourceMap s = some t ∧
      GetSystemTransformerBySource g s = (some t, none)) := by
  unfold GetSystemTransformerBySource
  cases hm : g.systemTransformerSourceMap s with
  | none => exact Or.inl ⟨rfl, rfl⟩
  | some t => exact Or.inr ⟨t, rfl, rfl⟩

/-- C13: after `init` (whatever permutation of the declared slice the sort
leaves), lookup by source agrees with the list. The sources of the list are
pairwise distinct; every listed transformer is what the lookup of its source
returns, with no error; a source no listed transformer has gives the not-found
error and no transformer; whatever the lookup returns is a listed transformer of
that source; hence the lookup succeeds exactly for the sources in the list. -/
theorem GetSystemTransformerBySource_agrees
    (SortFunc : List SystemTransformer → (SystemTransformer → SystemTransformer → Int) →
      List SystemTransformer)
    (hperm : (SortFunc systemTransformers compareByName).Perm systemTransformers) :
    ((init SortFunc).systemTransformers.map (fun t => t.Source)).Nodup ∧
    (∀ t ∈ (init SortFunc).systemTransformers,
      GetSystemTransformerBySource (init SortFunc) t.Source = (some t, none)) ∧
    (∀ s, (∀ t ∈ (init SortFunc).systemTransformers, t.Source ≠ s) →
      GetSystemTransformerBySource (init SortFunc) s =
        (none, some (ServiceError.notFound
          "unable to find system transformer with provided source"))) ∧
    (∀ s t, GetSystemTransformerBySource (init SortFunc) s = (some t, none) →
      t ∈ (init SortFunc).systemTransformers ∧ t.Source = s) ∧
    (∀ s, (∃ t ∈ (init SortFunc).systemTransformers, t.Source = s) ↔
      (GetSystemTransformerBySource (init SortFunc) s).2 = none) := by
  have hnd : ((init SortFunc).systemTransformers.map (fun t => t.Source)).Nodup :=
    (hperm.map (fun t => t.Source)).nodup_iff.2 declared_sources_nodup
  have hhit : ∀ t ∈ (init SortFunc).systemTransformers,
      (init SortFunc).systemTransformerSourceMap t.Source = some t :=
    fun t ht => foldl_mapSet_hit _ _ t ht hnd
  have hmiss : ∀ s, (∀ t ∈ (init SortFunc).systemTransformers, t.Source ≠ s) →
      (init SortFunc).systemTransformerSourceMap s = none :=
    fun s hs => foldl_mapSet_miss _ _ s hs
  have hinv : ∀ s t, (init SortFunc).systemTransformerSourceMap s = some t →
      t ∈ (init SortFunc).systemTransformers ∧ t.Source = s := by
    intro s t hst
    by_cases hex : ∃ t2 ∈ (init SortFunc).systemTransformers, t2.Source = s
    · obtain ⟨t2, ht2, hs2⟩ := hex
      have := hhit t2 ht2
      rw [hs2, hst] at this
      have ht : t = t2 := Option.some.inj this
      rw [ht]
      exact ⟨ht2, hs2⟩
    · have := hmiss s (fun t2 ht2 hc => hex ⟨t2, ht2, hc⟩)
      rw [this] at hst
      exact absurd hst (by simp)
  refine ⟨hnd, ?_, ?_, ?_, ?_⟩
  · intro t ht
    unfold GetSystemTransformerBySource
    rw [hhit t ht]
  · intro s hs
    unfold GetSystemTransformerBySource
    rw [hmiss s hs]
  · intro s t hg
    rcases lookup_cases (init SortFunc) s with ⟨-, h2⟩ | ⟨t2, h1, h2⟩
    · rw [h2] at hg
      exact absurd (congrArg Prod.fst hg) (by simp)
    · rw [h2] at hg
      have ht : t2 = t := Option.some.inj (congrArg Prod.fst hg)
      rw [← ht]
      exact hinv s t2 h1
  · intro s
    constructor
    · rintro ⟨t, ht, hs⟩
      unfold GetSystemTransformerBySource
      rw [← hs, hhit t ht]
    · intro hg
      rcases lookup_cases (init SortFunc) s with ⟨-, h2⟩ | ⟨t2, h1, h2⟩
      · rw [h2] at hg
        exact absurd hg (by simp)
      · exact ⟨t2, hinv s t2 h1⟩

/-- C13, at a concrete input: the sort is an insertion sort. -/
theorem GetSystemTransformerBySource_agrees_witness :
    (Ref.SortFunc systemTransformers compareByName).Perm systemTransformers ∧
    (((init Ref.SortFunc).systemTransformers.map (fun t => t.Source)).Nodup ∧
    (∀ t ∈ (init Ref.SortFunc).systemTransformers,
      GetSystemTransformerBySource (init Ref.SortFunc) t.Source = (some t, none)) ∧
    (∀ s, (∀ t ∈ (init Ref.SortFunc).systemTransformers, t.Source ≠ s) →
      GetSystemTransformerBySource (init Ref.SortFunc) s =
        (none, some (ServiceError.notFound
          "unable to find system transformer with provided source"))) ∧
    (∀ s t, GetSystemTransformerBySource (init Ref.SortFunc) s = (some t, none) →
      t ∈ (init Ref.SortFunc).systemTransformers ∧ t.Source = s) ∧
    (∀ s, (∃ t ∈ (init Ref.SortFunc).systemTransformers, t.Source = s) ↔
      (GetSystemTransformerBySource (init Ref.SortFunc) s).2 = none)) :=
  ⟨ref_sort_perm, GetSystemTransformerBySource_agrees Ref.SortFunc ref_sort_perm⟩

end TransformersService

end Neosync
